import Mathlib

/- Verification of the column-classification and chart-inference engine of the
   excelcharts backend: a shallow embedding of
   backend/app/services/profiler.py and backend/app/services/inference.py,
   together with the record types of backend/app/core/schemas.py.

   Conventions of the embedding:
   * Python strings are Lean `String`s; string manipulation is done on the
     underlying `List Char` (Python operates on code points, as does `.data`).
     `str.strip`, `str.lower`, `in`, `split` are modelled for the ASCII range
     the repository's heuristics target.
   * Python floats appearing in the engine are either hand-picked score
     constants (0.95, 0.85, ...) or ratio thresholds (0.6, 0.5, 0.10, 0.3).
     They are modelled as exact rationals; for every threshold comparison the
     float comparison and the exact rational comparison agree on the argument
     ranges that occur (sample sizes are capped at 10, 200 or involve
     denominators far larger than the rounding error of the double constants),
     so the model is exact.  Statistics (mean) are modelled as exact rationals;
     the claims below only inspect whether they are null, never their rounding.
   * pandas Series are modelled by their storage kind (int64, float64, object
     holding strings, datetime64) and their list of optionally-null values.
   * `pd.to_datetime` is an external library routine; it is passed in as an
     oracle `dateParses : List String → Bool` ("do these sampled strings all
     parse as dates without raising").  Timestamps are opaque integers and
     `isoformat` is modelled as their (injective) decimal rendering.
   * Exceptions: no operation on the modelled paths can raise (the one
     fallible region, the AI structure analysis, is wrapped in try/except in
     the source and is modelled as an explicit `Option` input). -/

/-- Python whitespace in the ASCII range: the characters removed by str.strip
and matched by the whitespace class of the profiler's regexes. -/
def pyWS (c : Char) : Bool :=
  c == ' ' || c == '\t' || c == '\n' || c == '\r' || c == '\x0b' || c == '\x0c'

/-- str.strip on a code-point list: drop leading and trailing whitespace. -/
def stripList (cs : List Char) : List Char :=
  ((cs.dropWhile pyWS).reverse.dropWhile pyWS).reverse

/-- str.strip. -/
def pyStrip (s : String) : String := String.mk (stripList s.data)

/-- str.lower (ASCII). -/
def lowerStr (s : String) : String := String.mk (s.data.map Char.toLower)

/-- Python len() of a string counts code points. -/
def strLen (s : String) : Nat := s.data.length

/-- Does the first list start with the second? -/
def startsWithList : List Char → List Char → Bool
  | _, [] => true
  | [], _ :: _ => false
  | a :: as, b :: bs => a == b && startsWithList as bs

/-- Does `needle` occur contiguously in `hay`? -/
def occursIn (needle : List Char) : List Char → Bool
  | [] => needle.isEmpty
  | c :: cs => startsWithList (c :: cs) needle || occursIn needle cs

/-- Python's `needle in hay` on strings. -/
def containsStr (hay needle : String) : Bool := occursIn needle.data hay.data

/-- Python's `hay.split(',')` (single-character separator). -/
def splitComma : List Char → List (List Char)
  | [] => [[]]
  | c :: cs =>
    if c == ',' then [] :: splitComma cs
    else
      match splitComma cs with
      | [] => [[c]]
      | p :: ps => (c :: p) :: ps

/-- Numeric value of a decimal digit character. -/
def digitVal (c : Char) : Nat := c.toNat - 48

/-- The natural number denoted by a list of decimal digits. -/
def digitsToNat (cs : List Char) : Nat := cs.foldl (fun a c => 10 * a + digitVal c) 0

/-- Python str.isdigit for ASCII-decimal strings: nonempty and all digits. -/
def isDigitStr (s : String) : Bool := !s.data.isEmpty && s.data.all Char.isDigit

/-- A character that may follow the leading digits in
extract_numeric_prefix's regex: a member of the class [(.-:] or whitespace
(the class in the source also contains the whitespace class). -/
def delimChar (c : Char) : Bool :=
  c == '(' || c == '.' || c == '-' || c == ':' || pyWS c

/-- profiler.extract_numeric_prefix: the leading integer of values like
"1 (Strongly Disagree)", "2. Disagree", "3 - Neutral", "4: Agree" or a bare
digit string; `none` when there is no such prefix.  The regex
anchored-at-start pattern (digits, optional whitespace, one delimiter
character) succeeds exactly when the stripped value starts with digits
followed by a delimiter character; the fallback accepts all-digit strings. -/
def numericPrefixOf (value : String) : Option Nat :=
  let s := stripList value.data
  let ds := s.takeWhile Char.isDigit
  let rest := s.drop ds.length
  if ds.isEmpty then none
  else
    match rest with
    | [] => some (digitsToNat ds)
    | c :: _ => if delimChar c then some (digitsToNat ds) else none

/-- profiler.POLARITY_KEYWORDS, in Python-dict insertion order (Python dicts
iterate in insertion order, which the partial-match loop relies on). -/
def polarityKeywords : List (String × Int) :=
  [("strongly disagree", -2), ("very dissatisfied", -2), ("very unlikely", -2),
   ("very poor", -2), ("never", -2), ("not at all", -2),
   ("extremely dissatisfied", -2), ("completely disagree", -2),
   ("totally disagree", -2),
   ("disagree", -1), ("dissatisfied", -1), ("unlikely", -1), ("poor", -1),
   ("rarely", -1), ("seldom", -1), ("bad", -1), ("no", -1), ("false", -1),
   ("neutral", 0), ("neither", 0), ("sometimes", 0), ("average", 0),
   ("moderate", 0), ("uncertain", 0), ("undecided", 0), ("don\x27t know", 0),
   ("i don\x27t know", 0), ("not sure", 0), ("maybe", 0), ("fair", 0),
   ("agree", 1), ("satisfied", 1), ("likely", 1), ("good", 1),
   ("often", 1), ("usually", 1), ("yes", 1), ("true", 1),
   ("strongly agree", 2), ("very satisfied", 2), ("very likely", 2),
   ("excellent", 2), ("always", 2), ("very good", 2),
   ("extremely satisfied", 2), ("completely agree", 2), ("totally agree", 2)]

/-- profiler.get_polarity_score: exact dictionary hit first, then the first
keyword (in insertion order) contained in the lowered, stripped value. -/
def getPolarityScore (value : String) : Option Int :=
  let vl := pyStrip (lowerStr value)
  match polarityKeywords.find? (fun kv => kv.1 == vl) with
  | some kv => some kv.2
  | none => (polarityKeywords.find? (fun kv => containsStr vl kv.1)).map Prod.snd

/-- One step of a stable insertion sort: `lt d c` reads "d must stay in front
of c", so `c` is inserted before the first element that need not precede it.
With `lt d c := key d < key c` this reproduces the semantics of Python's
stable `sorted(..., key=...)` / `list.sort(key=..., reverse=True)`. -/
def pyInsert {α : Type} (lt : α → α → Bool) (c : α) : List α → List α
  | [] => [c]
  | d :: ds => if lt d c then d :: pyInsert lt c ds else c :: d :: ds

/-- Stable insertion sort (see `pyInsert`). -/
def pySortBy {α : Type} (lt : α → α → Bool) : List α → List α
  | [] => []
  | c :: cs => pyInsert lt c (pySortBy lt cs)

/-- Python's stable `sorted(l, key=key)`: ascending in `key`, ties keep their
original relative order. -/
def sortByKey {α : Type} {β : Type} [LinearOrder β] (key : α → β) (l : List α) : List α :=
  pySortBy (fun d c => decide (key d < key c)) l

/-- The cleaned value list of detect_likert_scale: each value stripped, empty
results dropped. -/
def cleanVals (uniqueValues : List String) : List String :=
  uniqueValues.filterMap (fun v =>
    let t := pyStrip v
    if t == "" then none else some t)

/-- The (value, numeric prefix) pairs collected by detect_likert_scale's
numeric-prefix strategy. -/
def numericScoresOf (clean : List String) : List (String × Nat) :=
  clean.filterMap (fun v => (numericPrefixOf v).map (fun n => (v, n)))

/-- The (value, polarity) pairs collected by detect_likert_scale's
polarity-keyword strategy. -/
def polarityScoresOf (clean : List String) : List (String × Int) :=
  clean.filterMap (fun v => (getPolarityScore v).map (fun n => (v, n)))

/-- The canonical simple scales of detect_likert_scale's third strategy.
The source tests `normalized == scale or normalized.issubset(scale)`, which
is equivalent to the subset test alone. -/
def simpleScales : List (List String) :=
  [["yes", "no"], ["yes", "no", "maybe"], ["true", "false"],
   ["true", "false", "i don\x27t know"]]

/-- profiler.detect_likert_scale: universal Likert detection on the distinct
string values of a column.  Returns (is_likert, ordered values).
Strategy 1 keeps only the values with a numeric prefix, sorted by prefix;
the 60% threshold `len(numeric_scores) >= len(clean_values)*0.6` is the exact
comparison 5*k >= 3*n (for n <= 10 the float and rational tests agree).
Strategy 2 keeps only the values with a polarity keyword, sorted by
polarity (>= 50%, i.e. 2*k >= n, exact since 0.5 is a binary float).
Strategy 3 recognises yes/no(/maybe) and true/false(/i don't know) sets. -/
def detectLikertScale (uniqueValues : List String) : Bool × Option (List String) :=
  if uniqueValues.length < 2 || uniqueValues.length > 10 then (false, none)
  else
    let clean := cleanVals uniqueValues
    if clean.length < 2 then (false, none)
    else
      let ns := numericScoresOf clean
      if 5 * ns.length ≥ 3 * clean.length then
        (true, some ((sortByKey Prod.snd ns).map Prod.fst))
      else
        let ps := polarityScoresOf clean
        if 2 * ps.length ≥ clean.length then
          (true, some ((sortByKey Prod.snd ps).map Prod.fst))
        else
          let normalized := clean.map (fun v => pyStrip (lowerStr v))
          match simpleScales.find? (fun scale => normalized.all (fun v => scale.contains v)) with
          | none => (false, none)
          | some _ =>
            let ord :=
              if normalized.contains "yes" then
                (if normalized.contains "maybe" then ["Yes", "Maybe", "No"]
                 else ["Yes", "No"])
              else if normalized.contains "true" then
                (if normalized.contains "i don\x27t know" then
                   ["True", "False", "I don\x27t know"]
                 else ["True", "False"])
              else clean
            let result := ord.filterMap (fun o => clean.find? (fun v => lowerStr v == lowerStr o))
            (true, some (if result.isEmpty then clean else result))

/-- A parsed cell value, as surfaced in ColumnProfile.examples. -/
inductive PyVal : Type
  | int (i : Int)
  | float (q : ℚ)
  | str (s : String)
  | dt (t : Int)
  deriving DecidableEq

/-- A pandas Series: its storage kind together with its optionally-null
values (None/NaN cells are `none`).  Object columns of the profiled tables
hold strings. -/
inductive Series : Type
  | ints (xs : List (Option Int))
  | floats (xs : List (Option ℚ))
  | strs (xs : List (Option String))
  | dts (xs : List (Option Int))
  deriving DecidableEq

/-- series.dropna() on the raw values. -/
def dropNone {α : Type} (xs : List (Option α)) : List α := xs.filterMap id

/-- Number of null cells. -/
def countNone {α : Type} (xs : List (Option α)) : Nat :=
  (xs.filter (fun x => x.isNone)).length

/-- Deduplication keeping the first occurrence of each value, in order of
appearance: the semantics of pandas Series.unique(). -/
def dedupAux {α : Type} [DecidableEq α] (seen : List α) : List α → List α
  | [] => []
  | x :: xs => if x ∈ seen then dedupAux seen xs else x :: dedupAux (x :: seen) xs

/-- pandas Series.unique() on non-null values (order of appearance). -/
def dedupFirst {α : Type} [DecidableEq α] (l : List α) : List α := dedupAux [] l

/-- series.nunique(): number of distinct non-null values. -/
def nuniqueOf : Series → Nat
  | .ints xs => (dedupFirst (dropNone xs)).length
  | .floats xs => (dedupFirst (dropNone xs)).length
  | .strs xs => (dedupFirst (dropNone xs)).length
  | .dts xs => (dedupFirst (dropNone xs)).length

/-- series.isna().sum(). -/
def nullCountOf : Series → Nat
  | .ints xs => countNone xs
  | .floats xs => countNone xs
  | .strs xs => countNone xs
  | .dts xs => countNone xs

/-- pandas.api.types.is_numeric_dtype. -/
def isNumericStorage : Series → Bool
  | .ints _ => true
  | .floats _ => true
  | _ => false

/-- Greatest element of a list, `none` when empty (an empty pandas max is NaN,
and every NaN comparison is False, which the call sites reproduce). -/
def listMax? {α : Type} [LinearOrder α] (l : List α) : Option α :=
  l.foldl (fun a x => match a with | none => some x | some m => some (max m x)) none

/-- Least element of a list, `none` when empty. -/
def listMin? {α : Type} [LinearOrder α] (l : List α) : Option α :=
  l.foldl (fun a x => match a with | none => some x | some m => some (min m x)) none

/-- profiler.infer_dtype.  The pd.to_datetime attempt on an object column is
the oracle `dateParses` applied to the first 100 non-null values ("do they all
parse without raising"); pandas accepts an empty sample, so whether an empty
object column is temporal is the oracle's verdict on [].  For numeric storage
the source tests nunique < 12, then float storage, then max > 50 (an empty
integer column has max NaN and NaN > 50 is False).  The redundant branches of
the source (float columns are numeric on both sides of the nunique test,
string columns are nominal on both sides of the nunique < 50 test) are kept. -/
def inferDtype (dateParses : List String → Bool) : Series → String
  | .dts _ => "temporal"
  | .strs xs =>
      if dateParses ((dropNone xs).take 100) then "temporal"
      else if (dedupFirst (dropNone xs)).length < 50 then "nominal"
      else "nominal"
  | .floats xs =>
      if (dedupFirst (dropNone xs)).length < 12 then "numeric"
      else "numeric"
  | .ints xs =>
      if (dedupFirst (dropNone xs)).length < 12 then
        match listMax? (dropNone xs) with
        | some m => if m > 50 then "numeric" else "ordinal"
        | none => "ordinal"
      else "numeric"

/-- The 200-row non-null sample of detect_checkbox_column. -/
def checkboxSample (xs : List (Option String)) : List String := (dropNone xs).take 200

/-- Strategy 1 of detect_checkbox_column, per value: the value contains a
comma and splitting on commas yields at least two non-empty stripped parts. -/
def commaSplits (v : String) : Bool :=
  containsStr v "," &&
    decide (2 ≤ (((splitComma v.data).map stripList).filter (fun p => !p.isEmpty)).length)

/-- The comma_count of detect_checkbox_column over the 200-row sample. -/
def commaCountOf (sample : List String) : Nat := (sample.filter commaSplits).length

/-- Strategy 2 of detect_checkbox_column: pairs (i < j, i < 10, j < 20) of
sampled unique values where the earlier value is a strictly shorter substring
of the later one. -/
def substrMatchesOf (uv : List String) : Nat :=
  ((List.range (min 10 uv.length)).map (fun i =>
      match uv.get? i with
      | none => 0
      | some v1 =>
          (((uv.take 20).drop (i + 1)).filter (fun v2 =>
              decide (strLen v1 < strLen v2) && containsStr v2 v1)).length)).sum

/-- profiler.detect_checkbox_column on an object (string) column.  The comma
threshold of the source is the strict float comparison
comma_count / len(sample) > 0.10, i.e. 10 * comma_count > len(sample)
(exact: the sample holds at most 200 values, far inside the precision of the
double constant 0.10).  Strategy 2 falls through to strategy 3 when fewer
than 3 substring pairs are found, which the combined condition reproduces. -/
def detectCheckboxColumn (xs : List (Option String)) : Bool :=
  let sample := checkboxSample xs
  if sample.isEmpty then false
  else
    let uniqueCount := (dedupFirst (dropNone xs)).length
    let rowCount := (dropNone xs).length
    if 10 * commaCountOf sample > sample.length then true
    else if 20 < uniqueCount ∧ 10 < rowCount ∧
            3 ≤ substrMatchesOf ((dedupFirst (dropNone xs)).take 50) then true
    else if sample.any (fun v => containsStr v ",") ∧ 15 < uniqueCount then true
    else false

/-- The split position used by detect_grid_group's anchored lazy regexes: the
first occurrence (at index >= 1, so that the lazy prefix group is nonempty)
of the opening character that leaves a nonempty middle before the closing
character, which must be the final character of the name. -/
def gridGroupWith (ob cb : Char) (cs : List Char) : Option String :=
  if cs.getLast? == some cb then
    match (List.range cs.length).find? (fun j =>
        decide (1 ≤ j) && decide (j + 3 ≤ cs.length) && cs.get? j == some ob) with
    | some j => some (String.mk (stripList (cs.take j)))
    | none => none
  else none

/-- profiler.detect_grid_group: a name of the shape "prefix [suffix]" (or,
failing that, "prefix (suffix)") yields the stripped prefix. -/
def detectGridGroup (columnName : String) : Option String :=
  match gridGroupWith '[' ']' columnName.data with
  | some g => some g
  | none => gridGroupWith '(' ')' columnName.data

/-- The name patterns of profiler.detect_other_column. -/
def otherPatterns : List String :=
  ["other", "specify", "please describe", "if other", "else"]

/-- profiler.detect_other_column.  unique/row > 0.3 is modelled exactly as
10 * unique > 3 * row; the cardinality test short-circuits before the
division, so an empty table cannot divide by zero.  (The profiler computes
this flag but does not place it in the emitted ColumnProfile.) -/
def detectOtherColumn (columnName : String) (uniqueCount rowCount : Nat) : Bool :=
  let nameLower := lowerStr columnName
  otherPatterns.any (fun p => containsStr nameLower p) &&
    (if 10 < uniqueCount then decide (10 * uniqueCount > 3 * rowCount) else false)

/-- The non-null values of a numerically-stored series as exact rationals
(Python compares int and float cells by value, as ℚ does). -/
def numericValues : Series → Option (List ℚ)
  | .ints xs => some ((dropNone xs).map (fun i => (i : ℚ)))
  | .floats xs => some (dropNone xs)
  | _ => none

/-- profiler.detect_numeric_likert: subset match against the canonical
numeric Likert ranges 1-5, 1-7, 0-10, 1-10, tried in that order. -/
def detectNumericLikert (s : Series) : Bool × Option (List Int) :=
  match numericValues s with
  | none => (false, none)
  | some vals =>
    if vals.isEmpty then (false, none)
    else
      let inSet (ks : List Int) : Bool := vals.all (fun q => ks.any (fun k => q == (k : ℚ)))
      if inSet [1, 2, 3, 4, 5] then (true, some [1, 2, 3, 4, 5])
      else if inSet [1, 2, 3, 4, 5, 6, 7] then (true, some [1, 2, 3, 4, 5, 6, 7])
      else if inSet ((List.range 11).map Int.ofNat) then
        (true, some ((List.range 11).map Int.ofNat))
      else if inSet ((List.range 10).map (fun n => Int.ofNat (n + 1))) then
        (true, some ((List.range 10).map (fun n => Int.ofNat (n + 1))))
      else (false, none)

/-- schemas.ColumnProfile as the profiler constructs it (profiler.py:492-506):
the intended data model.  The pydantic class in schemas.py declares only the
first nine fields; the four survey attributes are passed by the profiler but
silently dropped by pydantic's default extra-ignoring constructor, so REAL
runtime instances do not carry them and any attribute read of a dropped field
raises AttributeError.  That defect is the subject of claim C1 (via the field
lists below); its runtime consequence for inference — every read of a survey
attribute on a schema object fails — is modelled separately by `schemaRead`
and `inferChartsRuntime` (claims C2 and C9).  Theorems stated over this
record therefore describe the producing code and the rule logic on the data
model both sides of the interface intend, not the crash the schema slip
causes at run time. -/
structure ColumnProfile where
  name : String
  original_name : String
  dtype : String
  null_count : Nat
  unique_count : Nat
  examples : List PyVal
  min : Option (ℚ ⊕ String)
  max : Option (ℚ ⊕ String)
  mean : Option ℚ
  is_checkbox : Bool
  is_likert : Bool
  likert_order : Option (List String)
  grid_group : Option String
  deriving DecidableEq

/-- ISO rendering of a (modelled, opaque-integer) timestamp; injective, which
is all the claims need of it. -/
def isoOfTs (t : Int) : String := toString t

/-- The min/max/mean block of profile_dataset's column loop
(profiler.py:424-454): temporal columns get ISO strings (or the raw string
min/max when a string column classified temporal was not storage-converted),
numerically stored columns get exact min/max/mean, all three stay null for an
empty column or any other storage. -/
def columnStats (dateParses : List String → Bool) (s : Series) :
    Option (ℚ ⊕ String) × Option (ℚ ⊕ String) × Option ℚ :=
  if inferDtype dateParses s = "temporal" then
    match s with
    | .dts xs =>
      match listMin? (dropNone xs), listMax? (dropNone xs) with
      | some a, some b => (some (Sum.inr (isoOfTs a)), some (Sum.inr (isoOfTs b)), none)
      | _, _ => (none, none, none)
    | .strs xs =>
      match listMin? (dropNone xs), listMax? (dropNone xs) with
      | some a, some b => (some (Sum.inr a), some (Sum.inr b), none)
      | _, _ => (none, none, none)
    | _ => (none, none, none)
  else if isNumericStorage s then
    match numericValues s with
    | some vals =>
      match listMin? vals, listMax? vals with
      | some a, some b => (some (Sum.inl a), some (Sum.inl b), some (vals.sum / (vals.length : ℚ)))
      | _, _ => (none, none, none)
    | none => (none, none, none)
  else (none, none, none)

/-- clean_series.head(3).tolist(). -/
def examplesOf : Series → List PyVal
  | .ints xs => ((dropNone xs).take 3).map PyVal.int
  | .floats xs => ((dropNone xs).take 3).map PyVal.float
  | .strs xs => ((dropNone xs).take 3).map PyVal.str
  | .dts xs => ((dropNone xs).take 3).map PyVal.dt

/-- Result of the survey-detection block of the per-column loop. -/
structure SurveyFlags where
  is_checkbox : Bool
  is_likert : Bool
  likert_order : Option (List String)
  grid_group : Option String
  dtypeOut : String
  deriving DecidableEq

/-- The survey-detection block of profile_dataset's column loop
(profiler.py:459-490).  The numeric-Likert branch requires numeric storage
and dtype 'ordinal'; the string branch requires dtype nominal/ordinal and
non-numeric storage (hence string storage: datetime storage is always
temporal), runs checkbox detection first, Likert detection only when checkbox
came back false, upgrades the dtype to 'ordinal' on Likert success, and
computes the grid group from the column name.  The two branches' guards are
mutually exclusive.  `surveyBlockNumeric` is the numeric-Likert branch
(profiler.py:467-472), which is all that can fire on a non-string column;
`surveyBlock` adds the string branch (profiler.py:474-490), whose two arms
reflect that Likert detection only runs when checkbox detection returned
false. -/
def surveyBlockNumeric (s : Series) (dtype0 : String) : SurveyFlags :=
  if isNumericStorage s && dtype0 == "ordinal" then
    if (detectNumericLikert s).1 then
      { is_checkbox := false, is_likert := true,
        likert_order := ((detectNumericLikert s).2).map (fun l => l.map (fun i => toString i)),
        grid_group := none, dtypeOut := dtype0 }
    else
      { is_checkbox := false, is_likert := false, likert_order := none,
        grid_group := none, dtypeOut := dtype0 }
  else
    { is_checkbox := false, is_likert := false, likert_order := none,
      grid_group := none, dtypeOut := dtype0 }

def surveyBlock (colName : String) (s : Series) (dtype0 : String) : SurveyFlags :=
  if (dtype0 == "nominal" || dtype0 == "ordinal") && !(isNumericStorage s) then
    match s with
    | .strs xs =>
      if detectCheckboxColumn xs then
        { is_checkbox := true, is_likert := false, likert_order := none,
          grid_group := detectGridGroup colName, dtypeOut := dtype0 }
      else
        { is_checkbox := false,
          is_likert := (detectLikertScale ((dedupFirst (dropNone xs)).take 20)).1,
          likert_order := (detectLikertScale ((dedupFirst (dropNone xs)).take 20)).2,
          grid_group := detectGridGroup colName,
          dtypeOut :=
            if (detectLikertScale ((dedupFirst (dropNone xs)).take 20)).1 then "ordinal"
            else dtype0 }
    | _ => surveyBlockNumeric s dtype0
  else surveyBlockNumeric s dtype0

/-- One iteration of profile_dataset's per-column loop (profiler.py:407-506):
classify, compute statistics and examples, run the survey detectors, and
assemble the record handed to the ColumnProfile constructor. -/
def profileColumn (dateParses : List String → Bool) (colName : String) (s : Series) :
    ColumnProfile :=
  let dtype0 := inferDtype dateParses s
  let st := columnStats dateParses s
  let sv := surveyBlock colName s dtype0
  { name := colName, original_name := colName, dtype := sv.dtypeOut,
    null_count := nullCountOf s, unique_count := nuniqueOf s,
    examples := examplesOf s, min := st.1, max := st.2.1, mean := st.2.2,
    is_checkbox := sv.is_checkbox, is_likert := sv.is_likert,
    likert_order := sv.likert_order, grid_group := sv.grid_group }

/-- schemas.DatasetProfile. -/
structure DatasetProfile where
  row_count : Nat
  col_count : Nat
  columns : List ColumnProfile
  deriving DecidableEq

/-- An in-memory table: its row count and its named columns. -/
structure PTable where
  nRows : Nat
  cols : List (String × Series)

/-- profiler.profile_dataset.  The currency/datetime pre-pass of the source
(profiler.py:362-401) only rewrites the storage of some object columns before
the per-column loop runs; the embedding profiles the already-converted table,
and the theorems below quantify over all storages. -/
def profileDataset (dateParses : List String → Bool) (t : PTable) : DatasetProfile :=
  { row_count := t.nRows, col_count := t.cols.length,
    columns := t.cols.map (fun nc => profileColumn dateParses nc.1 nc.2) }

/-- The fields declared on schemas.ColumnProfile (schemas.py:4-13). -/
def columnProfileDeclaredFields : List String :=
  ["name", "original_name", "dtype", "null_count", "unique_count",
   "examples", "min", "max", "mean"]

/-- The keyword arguments profile_dataset passes to the ColumnProfile
constructor (profiler.py:492-506). -/
def profilerPassedFields : List String :=
  ["name", "original_name", "dtype", "null_count", "unique_count",
   "examples", "min", "max", "mean",
   "is_checkbox", "is_likert", "likert_order", "grid_group"]

/-- The survey attributes named by the specification's data model (§3). -/
def surveyAttributeFields : List String :=
  ["is_checkbox", "is_likert", "likert_order", "grid_group"]

/-- The float score literal 1.0 (grid rule). -/
def score100 : ℚ := 1

/-- The float score literal 0.98 (checkbox rule), in lowest terms.  The score
constants are given structurally (numerator/denominator) so that the kernel
can compute with them; the accompanying examples check each one against its
decimal form. -/
def score098 : ℚ := ⟨49, 50, by norm_num, by norm_num⟩

/-- The float score literal 0.95 (time+value rule). -/
def score095 : ℚ := ⟨19, 20, by norm_num, by norm_num⟩

/-- The float score literal 0.92 (single-Likert rule). -/
def score092 : ℚ := ⟨23, 25, by norm_num, by norm_num⟩

/-- The float score literal 0.85 (category+value, raw variant). -/
def score085 : ℚ := ⟨17, 20, by norm_num, by norm_num⟩

/-- The float score literal 0.82 (category+value, sum variant). -/
def score082 : ℚ := ⟨41, 50, by norm_num, by norm_num⟩

/-- The float score literal 0.80 (category+value mean variant, donut rule). -/
def score080 : ℚ := ⟨4, 5, by norm_num, by norm_num⟩

/-- The float score literal 0.75 (categorical bar count, low cardinality). -/
def score075 : ℚ := ⟨3, 4, by norm_num, by norm_num⟩

/-- The float score literal 0.72 (stacked-bar rule). -/
def score072 : ℚ := ⟨18, 25, by norm_num, by norm_num⟩

/-- The float score literal 0.70 (scatter, temporal count, high-cardinality
bar count). -/
def score070 : ℚ := ⟨7, 10, by norm_num, by norm_num⟩

/-- The float score literal 0.68 (correlation-matrix rule). -/
def score068 : ℚ := ⟨17, 25, by norm_num, by norm_num⟩

/-- The float score literal 0.65 (heatmap rule). -/
def score065 : ℚ := ⟨13, 20, by norm_num, by norm_num⟩

/-- The float score literal 0.60 (histogram rule). -/
def score060 : ℚ := ⟨3, 5, by norm_num, by norm_num⟩

/-- One section of the JSON structure returned by
ai_insights.analyze_dataset_structure, holding the fields inference.py reads
(with the defaults it supplies via dict.get already applied). -/
structure AISection where
  title : String
  stype : String
  columns : List String
  deriving DecidableEq

/-- The parsed response of the external AI structure analysis (its "sections"
key).  infer_charts receives it from an LLM provider; the embedding takes it
as an explicit input. -/
structure AIStructure where
  sections : List AISection
  deriving DecidableEq

/-- Python dict assignment d[k] = v: overwrite in place, otherwise append
(dicts preserve first-insertion position). -/
def dictSet {α : Type} : List (String × α) → String → α → List (String × α)
  | [], k, v => [(k, v)]
  | (k0, v0) :: rest, k, v =>
    if k0 == k then (k0, v) :: rest else (k0, v0) :: dictSet rest k v

/-- Python d.get(k, dflt). -/
def dictGet {α : Type} (m : List (String × α)) (k : String) (dflt : α) : α :=
  match m.find? (fun kv => kv.1 == k) with
  | some kv => kv.2
  | none => dflt

/-- Python `k in d`. -/
def dictMem {α : Type} (m : List (String × α)) (k : String) : Bool :=
  (m.find? (fun kv => kv.1 == k)).isSome

/-- The col_section_map / ai_grid_groups construction of infer_charts
(inference.py:36-58).  skip_ai suppresses the external call; a `none`
response (no provider configured, call or parse failure — the surrounding
try/except logs and leaves the maps empty) contributes nothing.  A section
is tracked as a grid group when its type is "grid" or its lowercased title
contains "rate" or "scale". -/
def buildSectionMaps (struct : Option AIStructure) :
    List (String × String) × List (String × List String) :=
  match struct with
  | none => ([], [])
  | some st =>
    st.sections.foldl
      (fun maps sec =>
        let m1 := sec.columns.foldl (fun m c => dictSet m c sec.title) maps.1
        let m2 :=
          if sec.stype == "grid" || containsStr (lowerStr sec.title) "rate" ||
              containsStr (lowerStr sec.title) "scale" then
            dictSet maps.2 sec.title sec.columns
          else maps.2
        (m1, m2))
      ([], [])

/-- A chart rendering description.  generate_vega_spec and
generate_correlation_matrix_spec (generator.py) build their JSON
dictionaries deterministically from the arguments recorded here; the three
dictionaries inference.py builds by hand (checkbox, grid and Likert charts)
keep the data that varies between candidates. -/
inductive ChartSpec (σ : Type) : Type
  | vega (chartType x title xType : String) (y yType yAgg color : Option String)
  | checkboxBar (colName displayTitle : String)
  | gridBar (groupName : String) (cols : List String) (likert : Option (List String))
      (sample : Option σ)
  | likertBar (colName displayTitle : String) (ord : List String) (gradient : Bool)
  | corrMatrix (cols : List String)
  deriving DecidableEq

/-- schemas.ChartCandidate as inference.py constructs it, i.e. with every
keyword the rules pass.  The group_name keyword is, like the survey
attributes of claim C1, not declared on the pydantic class and is silently
dropped from real instances, so a candidate the program returned would not
carry it; no claim below depends on group_name. -/
structure ChartCandidate (σ : Type) : Type where
  chart_type : String
  x_column : String
  y_column : Option String
  color_column : Option String
  title : String
  description : String
  score : ℚ
  spec : ChartSpec σ
  group_name : Option String
  deriving DecidableEq

/-- Truncation of long column names used by the checkbox and Likert rules:
names over 50 characters keep 47 and gain an ellipsis. -/
def displayTitleOf (name : String) : String :=
  if strLen name ≤ 50 then name else String.mk (name.data.take 47) ++ "..."

/-- The temporal role bucket (inference.py:61). -/
def temporalColsOf (p : DatasetProfile) : List ColumnProfile :=
  p.columns.filter (fun c => c.dtype == "temporal")

/-- The numeric role bucket (inference.py:62). -/
def numericColsOf (p : DatasetProfile) : List ColumnProfile :=
  p.columns.filter (fun c => c.dtype == "numeric")

/-- The combined categorical bucket: nominal columns then ordinal columns
(inference.py:63-67). -/
def categoricalColsOf (p : DatasetProfile) : List ColumnProfile :=
  p.columns.filter (fun c => c.dtype == "nominal")
    ++ p.columns.filter (fun c => c.dtype == "ordinal")

/-- The name half of the ID heuristic: "id" in num_col.name.lower(). -/
def idName (c : ColumnProfile) : Bool := containsStr (lowerStr c.name) "id"

/-- The area candidate appended by the time+value rule for one
temporal/numeric pair. -/
def tvCand {σ : Type} (t n : ColumnProfile) : ChartCandidate σ :=
  { chart_type := "area", x_column := t.name, y_column := some n.name,
    color_column := none, title := n.name ++ " over Time",
    description := "Trend of " ++ n.name ++ " over " ++ t.name,
    score := score095,
    spec := ChartSpec.vega "area" t.name (n.name ++ " over Time") "temporal"
              (some n.name) (some "quantitative") none none,
    group_name := none }

/-- Rule 2 of infer_charts (inference.py:69-94): temporal x numeric → area
chart, skipping a numeric column when its name contains "id" AND its unique
count equals the row count. -/
def ruleTimeValue {σ : Type} (rowCount : Nat)
    (temporalCols numericCols : List ColumnProfile) : List (ChartCandidate σ) :=
  temporalCols.flatMap (fun t =>
    numericCols.flatMap (fun n =>
      if idName n ∧ n.unique_count = rowCount then []
      else [tvCand t n]))

/-- The checkbox rule (inference.py:96-161): a horizontal flatten/count bar
for every checkbox column. -/
def ruleCheckbox {σ : Type} (secMap : List (String × String))
    (columns : List ColumnProfile) : List (ChartCandidate σ) :=
  (columns.filter (fun c => c.is_checkbox)).map (fun col =>
    { chart_type := "bar", x_column := col.name, y_column := none, color_column := none,
      title := "Responses: " ++ displayTitleOf col.name,
      description := "Count of individual selections (multi-select question)",
      score := score098,
      spec := ChartSpec.checkboxBar col.name (displayTitleOf col.name),
      group_name := some (dictGet secMap col.name "Multi-Select") })

/-- The grid-group keys of infer_charts (inference.py:165-166): regex-derived
groups, then AI-detected groups.  The source keeps them in a Python set whose
iteration order is unspecified (string hashes vary per process); the
embedding fixes first-appearance order, and every property proved below is
insensitive to that order. -/
def gridGroupKeys (aiGrid : List (String × List String))
    (columns : List ColumnProfile) : List String :=
  dedupFirst ((columns.filterMap (fun c => c.grid_group)) ++ aiGrid.map Prod.fst)

/-- The member columns of one grid group (inference.py:171-175): the AI
column list when the group came from the AI, else the grid_group match. -/
def gridGroupCols (aiGrid : List (String × List String))
    (columns : List ColumnProfile) (groupName : String) : List ColumnProfile :=
  if dictMem aiGrid groupName then
    columns.filter (fun c => (dictGet aiGrid groupName []).contains c.name)
  else
    columns.filter (fun c => c.grid_group == some groupName)

/-- The grid rule (inference.py:163-229): one folded grouped-bar candidate
per nonempty grid group, Likert-sorted via the first member column. -/
def ruleGrid {σ : Type} (aiGrid : List (String × List String))
    (columns : List ColumnProfile) (sample : Option σ) : List (ChartCandidate σ) :=
  (gridGroupKeys aiGrid columns).flatMap (fun g =>
    match gridGroupCols aiGrid columns g with
    | [] => []
    | c0 :: rest =>
      [{ chart_type := "bar", x_column := g, y_column := none, color_column := none,
         title := "Grid: " ++ g,
         description := "Grouped comparison of " ++ toString (c0 :: rest).length ++ " questions",
         score := score100,
         spec := ChartSpec.gridBar g ((c0 :: rest).map (fun c => c.name))
                   (if c0.is_likert then c0.likert_order else none) sample,
         group_name := some g }])

/-- processed_grid_cols after the grid loop: the names of the members of
every nonempty grid group (the loop's running union, order-independent). -/
def processedGridCols (aiGrid : List (String × List String))
    (columns : List ColumnProfile) : List String :=
  (gridGroupKeys aiGrid columns).flatMap (fun g =>
    (gridGroupCols aiGrid columns g).map (fun c => c.name))

/-- The single-Likert rule (inference.py:231-270): Likert columns with a
truthy (non-None, nonempty) order that are not in a processed grid group;
the colour gradient applies when every order entry is a digit string. -/
def ruleLikert {σ : Type} (secMap : List (String × String))
    (columns : List ColumnProfile) (processed : List String) : List (ChartCandidate σ) :=
  (columns.filter (fun c =>
      c.is_likert &&
        (match c.likert_order with
         | some l => !l.isEmpty
         | none => false) &&
        !processed.contains c.name)).map (fun col =>
    { chart_type := "bar", x_column := col.name, y_column := none, color_column := none,
      title := "Distribution: " ++ displayTitleOf col.name,
      description := "Likert scale distribution (sorted by scale order)",
      score := score092,
      spec := ChartSpec.likertBar col.name (displayTitleOf col.name)
                ((col.likert_order).getD []) (((col.likert_order).getD []).all isDigitStr),
      group_name := some (dictGet secMap col.name "Likert Questions") })

/-- The three bar variants appended by the category+value rule for one pair:
raw (0.85), sum-aggregated (0.82), mean-aggregated (0.80). -/
def catValCands {σ : Type} (secMap : List (String × String)) (cat n : ColumnProfile) :
    List (ChartCandidate σ) :=
  [{ chart_type := "bar", x_column := cat.name, y_column := some n.name,
             color_column := none, title := n.name ++ " by " ++ cat.name,
             description := "Comparison of " ++ n.name ++ " across " ++ cat.name,
             score := score085,
             spec := ChartSpec.vega "bar" cat.name (n.name ++ " by " ++ cat.name)
                       cat.dtype (some n.name) (some "quantitative") none none,
             group_name := some (dictGet secMap n.name "Analysis") },
           { chart_type := "bar", x_column := cat.name, y_column := some n.name,
             color_column := none, title := "Total " ++ n.name ++ " by " ++ cat.name,
             description := "Sum of " ++ n.name ++ " for each " ++ cat.name,
             score := score082,
             spec := ChartSpec.vega "bar" cat.name ("Total " ++ n.name ++ " by " ++ cat.name)
                       "nominal" (some n.name) (some "quantitative") (some "sum") none,
             group_name := some (dictGet secMap n.name "Analysis") },
           { chart_type := "bar", x_column := cat.name, y_column := some n.name,
             color_column := none, title := "Average " ++ n.name ++ " by " ++ cat.name,
             description := "Average of " ++ n.name ++ " for each " ++ cat.name,
             score := score080,
             spec := ChartSpec.vega "bar" cat.name ("Average " ++ n.name ++ " by " ++ cat.name)
                       "nominal" (some n.name) (some "quantitative") (some "mean") none,
             group_name := some (dictGet secMap n.name "Analysis") }]

/-- The category+value rule (inference.py:272-344): for every categorical
column with at most 20 uniques and every numeric column whose name does not
contain "id" (no unique-count test here), the three bar variants. -/
def ruleCatValue {σ : Type} (secMap : List (String × String))
    (categoricalCols numericCols : List ColumnProfile) : List (ChartCandidate σ) :=
  categoricalCols.flatMap (fun cat =>
    if 20 < cat.unique_count then []
    else
      numericCols.flatMap (fun n =>
        if idName n then []
        else catValCands secMap cat n))

/-- The scatter candidate for one numeric pair. -/
def scatterCand {σ : Type} (secMap : List (String × String)) (x y : ColumnProfile) :
    ChartCandidate σ :=
  { chart_type := "scatter", x_column := x.name, y_column := some y.name,
    color_column := none, title := x.name ++ " vs " ++ y.name,
    description := "Correlation between " ++ x.name ++ " and " ++ y.name,
    score := score070,
    spec := ChartSpec.vega "scatter" x.name (x.name ++ " vs " ++ y.name)
              "quantitative" (some y.name) (some "quantitative") none none,
    group_name := some (dictGet secMap x.name "Correlations") }

/-- The pair loop of the scatter rule (inference.py:350-376): for i < j, skip
col_x or col_y whenever its name contains "id" (no unique-count test). -/
def scatterPairs {σ : Type} (secMap : List (String × String)) :
    List ColumnProfile → List (ChartCandidate σ)
  | [] => []
  | x :: rest =>
    (if idName x then []
     else
       rest.flatMap (fun y =>
         if idName y then []
         else [scatterCand secMap x y]))
      ++ scatterPairs secMap rest

/-- Rule 4 (scatter) with its guard of at least two numeric columns
(inference.py:347-376). -/
def ruleScatter {σ : Type} (secMap : List (String × String))
    (numericCols : List ColumnProfile) : List (ChartCandidate σ) :=
  if 2 ≤ numericCols.length then scatterPairs secMap numericCols else []

/-- The histogram candidate for one numeric column. -/
def histCand {σ : Type} (secMap : List (String × String)) (n : ColumnProfile) :
    ChartCandidate σ :=
  { chart_type := "histogram", x_column := n.name, y_column := none,
    color_column := none, title := "Distribution of " ++ n.name,
    description := "Frequency distribution of " ++ n.name,
    score := score060,
    spec := ChartSpec.vega "histogram" n.name ("Distribution of " ++ n.name)
              "quantitative" none none none none,
    group_name := some (dictGet secMap n.name "Distributions") }

/-- The histogram rule (inference.py:378-397): one histogram per numeric
column whose name does not contain "id" (no unique-count test). -/
def ruleHistogram {σ : Type} (secMap : List (String × String))
    (numericCols : List ColumnProfile) : List (ChartCandidate σ) :=
  numericCols.flatMap (fun n =>
    if idName n then []
    else [histCand secMap n])

/-- The single-categorical rule (inference.py:399-435): a donut for columns
with at most 5 uniques, and a count bar for every categorical column (0.75,
or 0.70 above 20 uniques). -/
def ruleCatSingle {σ : Type} (secMap : List (String × String))
    (categoricalCols : List ColumnProfile) : List (ChartCandidate σ) :=
  categoricalCols.flatMap (fun cat =>
    (if cat.unique_count ≤ 5 then
       [{ chart_type := "donut", x_column := cat.name, y_column := none,
          color_column := none, title := "Distribution of " ++ cat.name,
          description := "Proportion of " ++ cat.name,
          score := score080,
          spec := ChartSpec.vega "donut" cat.name ("Distribution of " ++ cat.name)
                    "nominal" none none none none,
          group_name := some (dictGet secMap cat.name "Distributions") }]
     else [])
      ++ [{ chart_type := "bar", x_column := cat.name, y_column := none,
            color_column := none, title := "Count by " ++ cat.name,
            description := "Frequency of " ++ cat.name,
            score := if 20 < cat.unique_count then score070 else score075,
            spec := ChartSpec.vega "bar" cat.name ("Count by " ++ cat.name)
                      cat.dtype none none none none,
            group_name := some (dictGet secMap cat.name "Distributions") }])

/-- The single-temporal rule (inference.py:437-454): a response-volume area
chart per temporal column. -/
def ruleTemporalSingle {σ : Type} (secMap : List (String × String))
    (temporalCols : List ColumnProfile) : List (ChartCandidate σ) :=
  temporalCols.map (fun t =>
    { chart_type := "area", x_column := t.name, y_column := none, color_column := none,
      title := "Responses over " ++ t.name,
      description := "Volume of records over time",
      score := score070,
      spec := ChartSpec.vega "area" t.name ("Responses over " ++ t.name)
                "temporal" none none none none,
      group_name := some (dictGet secMap t.name "Time Series") })

/-- The heatmap rule (inference.py:456-485): cross-tabulations over the first
3 x 4 categorical columns, skipping any with more than 15 uniques. -/
def ruleHeatmap {σ : Type} (secMap : List (String × String))
    (categoricalCols : List ColumnProfile) : List (ChartCandidate σ) :=
  if 2 ≤ categoricalCols.length then
    (List.range (min 3 categoricalCols.length)).flatMap (fun i =>
      match categoricalCols.get? i with
      | none => []
      | some c1 =>
        if 15 < c1.unique_count then []
        else
          ((List.range (min 4 categoricalCols.length)).drop (i + 1)).flatMap (fun j =>
            match categoricalCols.get? j with
            | none => []
            | some c2 =>
              if 15 < c2.unique_count then []
              else
                [{ chart_type := "heatmap", x_column := c1.name, y_column := some c2.name,
                   color_column := none, title := c1.name ++ " vs " ++ c2.name,
                   description := "Cross-tabulation of " ++ c1.name ++ " and " ++ c2.name,
                   score := score065,
                   spec := ChartSpec.vega "heatmap" c1.name (c1.name ++ " vs " ++ c2.name)
                             "nominal" (some c2.name) (some "nominal") none none,
                   group_name := some (dictGet secMap c1.name "Analysis") }]))
  else []

/-- The stacked-bar rule (inference.py:487-513): the first two categorical
columns and the first numeric column, when both categoricals have at most 10
uniques. -/
def ruleStacked {σ : Type} (categoricalCols numericCols : List ColumnProfile) :
    List (ChartCandidate σ) :=
  if 2 ≤ categoricalCols.length ∧ 1 ≤ numericCols.length then
    match categoricalCols, numericCols with
    | c1 :: c2 :: _, n :: _ =>
      if c1.unique_count ≤ 10 ∧ c2.unique_count ≤ 10 then
        [{ chart_type := "stacked_bar", x_column := c1.name, y_column := some n.name,
           color_column := some c2.name, title := n.name ++ " by " ++ c1.name,
           description := "Grouped comparison of " ++ n.name,
           score := score072,
           spec := ChartSpec.vega "stacked_bar" c1.name
                     (n.name ++ " by " ++ c1.name ++ " (grouped by " ++ c2.name ++ ")")
                     "nominal" (some n.name) (some "quantitative") none (some c2.name),
           group_name := none }]
      else []
    | _, _ => []
  else []

/-- The correlation-matrix rule (inference.py:515-532): with three or more
numeric columns whose names lack "id", one scatter-matrix over the first
five of them. -/
def ruleCorr {σ : Type} (numericCols : List ColumnProfile) : List (ChartCandidate σ) :=
  if 3 ≤ numericCols.length then
    match (numericCols.filter (fun c => !idName c)).map (fun c => c.name) with
    | a :: b :: c :: rest =>
      [{ chart_type := "correlation_matrix", x_column := a, y_column := some b,
         color_column := none, title := "Correlation Matrix",
         description := "Scatter plot matrix of "
           ++ toString ((a :: b :: c :: rest).take 5).length ++ " numeric variables",
         score := score068,
         spec := ChartSpec.corrMatrix ((a :: b :: c :: rest).take 5),
         group_name := none }]
    | _ => []
  else []

/-- The candidate list of infer_charts in generation order
(inference.py:32-532), before sorting and truncation. -/
def inferCandidates {σ : Type} (skipAI : Bool) (aiResp : Option AIStructure)
    (profile : DatasetProfile) (sample : Option σ) : List (ChartCandidate σ) :=
  let struct := if skipAI then none else aiResp
  let maps := buildSectionMaps struct
  ruleTimeValue profile.row_count (temporalColsOf profile) (numericColsOf profile)
    ++ ruleCheckbox maps.1 profile.columns
    ++ ruleGrid maps.2 profile.columns sample
    ++ ruleLikert maps.1 profile.columns (processedGridCols maps.2 profile.columns)
    ++ ruleCatValue maps.1 (categoricalColsOf profile) (numericColsOf profile)
    ++ ruleScatter maps.1 (numericColsOf profile)
    ++ ruleHistogram maps.1 (numericColsOf profile)
    ++ ruleCatSingle maps.1 (categoricalColsOf profile)
    ++ ruleTemporalSingle maps.1 (temporalColsOf profile)
    ++ ruleHeatmap maps.1 (categoricalColsOf profile)
    ++ ruleStacked (categoricalColsOf profile) (numericColsOf profile)
    ++ ruleCorr (numericColsOf profile)

/-- inference.infer_charts on the intended data model (survey fields present
as the profiler passes them): the rule cascade, stably sorted by score
descending (Python's list.sort with reverse=True is stable) and truncated to
50 candidates (inference.py:534-541).  The parsed response of the external
AI structure analysis is the explicit input `aiResp`, which is ignored when
`skipAI` (the skip_ai parameter) is set.  The shipped code never completes
this computation for a nonempty profile: on runtime schema objects the
is_checkbox read at inference.py:99 raises — see `inferChartsRuntime`. -/
def inferCharts {σ : Type} (skipAI : Bool) (aiResp : Option AIStructure)
    (profile : DatasetProfile) (sample : Option σ) : List (ChartCandidate σ) :=
  (sortByKey (fun c => -c.score) (inferCandidates skipAI aiResp profile sample)).take 50

/-- One attribute read on a runtime schema object: a pydantic instance
carries exactly its declared fields, so reading any other name raises
AttributeError (the error branch); a declared field yields the value the
constructor stored. -/
def schemaRead {α : Type} (declared : List String) (field : String) (value : α) :
    Except String α :=
  if declared.contains field then Except.ok value
  else Except.error ("AttributeError: " ++ field)

/-- inference.infer_charts as executed on the runtime objects the route
actually passes in (routes.py:159): pydantic schemas.ColumnProfile
instances, which lack the survey fields (claim C1).  Everything up to
inference.py:98 touches only declared fields (profile.dict() for the AI
block, dtype for the role buckets, name/unique_count and the row count for
the time+value rule), so execution always reaches line 99, where
checkbox_cols filters profile.columns on c.is_checkbox: with at least one
column, the first read raises AttributeError and the call yields no list at
all.  Only a zero-column profile runs to completion — the later survey
reads (grid_group at 165, likert fields at 184/233) sit in loops over the
then-empty buckets — returning the empty candidate list.  Were the read to
succeed (the repaired schema), the remaining survey reads would succeed for
the same reason and the call would return the full cascade `inferCharts`. -/
def inferChartsRuntime {σ : Type} (skipAI : Bool) (aiResp : Option AIStructure)
    (profile : DatasetProfile) (sample : Option σ) :
    Except String (List (ChartCandidate σ)) :=
  match profile.columns with
  | [] => Except.ok (inferCharts skipAI aiResp profile sample)
  | c :: _ =>
    match schemaRead columnProfileDeclaredFields "is_checkbox" c.is_checkbox with
    | Except.error e => Except.error e
    | Except.ok _ => Except.ok (inferCharts skipAI aiResp profile sample)

/-- len(series.dropna()). -/
def nonNullCount : Series → Nat
  | .ints xs => (dropNone xs).length
  | .floats xs => (dropNone xs).length
  | .strs xs => (dropNone xs).length
  | .dts xs => (dropNone xs).length

/-- pandas.api.types.is_float_dtype. -/
def isFloatStorage : Series → Bool
  | .floats _ => true
  | _ => false

/-- All ordered pairs (i earlier than j) of a list, in the order the nested
scatter loop visits them. -/
def pairsOf {α : Type} : List α → List (α × α)
  | [] => []
  | x :: rest => (rest.map (fun y => (x, y))) ++ pairsOf rest

/-- A numeric column whose name contains "id" ("humIDity") but whose unique
count (3) differs from the row count of the profile below (5). -/
def humidityCol : ColumnProfile :=
  { name := "humidity", original_name := "humidity", dtype := "numeric",
    null_count := 0, unique_count := 3, examples := [],
    min := none, max := none, mean := none, is_checkbox := false,
    is_likert := false, likert_order := none, grid_group := none }

/-- A nominal companion column with 3 unique values (within the
category+value rule's 20-unique cap). -/
def cityCol : ColumnProfile :=
  { name := "city", original_name := "city", dtype := "nominal",
    null_count := 0, unique_count := 3, examples := [],
    min := none, max := none, mean := none, is_checkbox := false,
    is_likert := false, likert_order := none, grid_group := none }

/-- An id-free numeric companion column. -/
def tempCol : ColumnProfile :=
  { name := "temp", original_name := "temp", dtype := "numeric",
    null_count := 0, unique_count := 4, examples := [],
    min := none, max := none, mean := none, is_checkbox := false,
    is_likert := false, likert_order := none, grid_group := none }

/-- A five-row profile holding the categorical city column, the humidity
column and the id-free numeric temp column. -/
def profHumidityCity : DatasetProfile :=
  { row_count := 5, col_count := 3, columns := [cityCol, humidityCol, tempCol] }

/-- A single high-cardinality nominal column, for the concrete runtime
evaluations of claim C9. -/
def qNomCol : ColumnProfile :=
  { name := "q", original_name := "q", dtype := "nominal", null_count := 0,
    unique_count := 21, examples := [], min := none, max := none, mean := none,
    is_checkbox := false, is_likert := false, likert_order := none, grid_group := none }

/-- A one-column profile around `qNomCol`. -/
def profQNom : DatasetProfile :=
  { row_count := 3, col_count := 1, columns := [qNomCol] }

/-- An AI structure-analysis response declaring a grid group over column q,
used to instantiate the AI-response input at a nontrivial value. -/
def aiGridResp : AIStructure :=
  { sections := [{ title := "G", stype := "grid", columns := ["q"] }] }

theorem pyInsert_perm {α : Type} (lt : α → α → Bool) (c : α) (l : List α) :
    (pyInsert lt c l).Perm (c :: l) := by
  induction l with
  | nil => simp [pyInsert]
  | cons d ds ih =>
    by_cases h : lt d c
    · simpa [pyInsert, h] using ((List.Perm.cons d ih).trans (List.Perm.swap c d ds))
    · simp [pyInsert, h]

theorem mem_pyInsert {α : Type} (lt : α → α → Bool) (c x : α) (l : List α) :
    x ∈ pyInsert lt c l ↔ x = c ∨ x ∈ l := by
  simpa using (pyInsert_perm lt c l).mem_iff

theorem pairwise_pyInsert {α : Type} {β : Type} [LinearOrder β] (key : α → β) (c : α)
    (l : List α) (h : l.Pairwise (fun a b => key a ≤ key b)) :
    (pyInsert (fun d e => decide (key d < key e)) c l).Pairwise
      (fun a b => key a ≤ key b) := by
  induction l with
  | nil => simp [pyInsert]
  | cons d ds ih =>
    rw [List.pairwise_cons] at h
    by_cases hdc : key d < key c
    · have hins := ih h.2
      have hgoal : pyInsert (fun d e => decide (key d < key e)) c (d :: ds)
          = d :: pyInsert (fun d e => decide (key d < key e)) c ds := by
        simp [pyInsert, hdc]
      rw [hgoal, List.pairwise_cons]
      refine ⟨?_, hins⟩
      intro x hx
      rcases (mem_pyInsert _ c x ds).mp hx with h1 | h1
      · exact h1 ▸ le_of_lt hdc
      · exact h.1 x h1
    · have hgoal : pyInsert (fun d e => decide (key d < key e)) c (d :: ds)
          = c :: d :: ds := by
        simp [pyInsert, hdc]
      rw [hgoal, List.pairwise_cons, List.pairwise_cons]
      refine ⟨?_, h.1, h.2⟩
      intro x hx
      rcases List.mem_cons.mp hx with h1 | h1
      · exact h1 ▸ le_of_not_lt hdc
      · exact le_trans (le_of_not_lt hdc) (h.1 x h1)

theorem filter_pyInsert_eq {α : Type} {β : Type} [LinearOrder β] (key : α → β) (k : β)
    (c : α) (l : List α) (hc : key c = k) :
    (pyInsert (fun d e => decide (key d < key e)) c l).filter (fun a => decide (key a = k))
      = c :: l.filter (fun a => decide (key a = k)) := by
  induction l with
  | nil => simp [pyInsert, hc]
  | cons d ds ih =>
    by_cases hdc : key d < key c
    · have h1 : pyInsert (fun d e => decide (key d < key e)) c (d :: ds)
          = d :: pyInsert (fun d e => decide (key d < key e)) c ds := by
        simp [pyInsert, hdc]
      have hdk : ¬(key d = k) := by
        rw [← hc]
        exact ne_of_lt hdc
      rw [h1]
      simp only [List.filter_cons, ih]
      simp [hdk]
    · have h1 : pyInsert (fun d e => decide (key d < key e)) c (d :: ds)
          = c :: d :: ds := by
        simp [pyInsert, hdc]
      rw [h1]
      simp [List.filter_cons, hc]

theorem filter_pyInsert_ne {α : Type} {β : Type} [LinearOrder β] (key : α → β) (k : β)
    (c : α) (l : List α) (hc : ¬(key c = k)) :
    (pyInsert (fun d e => decide (key d < key e)) c l).filter (fun a => decide (key a = k))
      = l.filter (fun a => decide (key a = k)) := by
  induction l with
  | nil => simp [pyInsert, hc]
  | cons d ds ih =>
    by_cases hdc : key d < key c
    · have h1 : pyInsert (fun d e => decide (key d < key e)) c (d :: ds)
          = d :: pyInsert (fun d e => decide (key d < key e)) c ds := by
        simp [pyInsert, hdc]
      rw [h1]
      simp only [List.filter_cons, ih]
    · have h1 : pyInsert (fun d e => decide (key d < key e)) c (d :: ds)
          = c :: d :: ds := by
        simp [pyInsert, hdc]
      rw [h1]
      simp [List.filter_cons, hc]

theorem sortByKey_cons {α : Type} {β : Type} [LinearOrder β] (key : α → β) (c : α)
    (cs : List α) :
    sortByKey key (c :: cs)
      = pyInsert (fun d e => decide (key d < key e)) c (sortByKey key cs) := rfl

theorem sortByKey_perm {α : Type} {β : Type} [LinearOrder β] (key : α → β) (l : List α) :
    (sortByKey key l).Perm l := by
  induction l with
  | nil => exact List.Perm.refl []
  | cons c cs ih =>
    exact (pyInsert_perm _ c (sortByKey key cs)).trans (List.Perm.cons c ih)

theorem sortByKey_pairwise {α : Type} {β : Type} [LinearOrder β] (key : α → β) (l : List α) :
    (sortByKey key l).Pairwise (fun a b => key a ≤ key b) := by
  induction l with
  | nil => simp [sortByKey, pySortBy]
  | cons c cs ih => exact pairwise_pyInsert key c (sortByKey key cs) ih

theorem sortByKey_filter_key {α : Type} {β : Type} [LinearOrder β] (key : α → β) (k : β)
    (l : List α) :
    (sortByKey key l).filter (fun a => decide (key a = k))
      = l.filter (fun a => decide (key a = k)) := by
  induction l with
  | nil => rfl
  | cons c cs ih =>
    rw [sortByKey_cons]
    by_cases hc : key c = k
    · rw [filter_pyInsert_eq key k c (sortByKey key cs) hc, ih]
      simp [hc]
    · rw [filter_pyInsert_ne key k c (sortByKey key cs) hc, ih]
      simp [hc]

theorem flatMap_skipP {α : Type} {β : Type} (p : α → Prop) [DecidablePred p]
    (f : α → List β) (l : List α) :
    (l.flatMap (fun x => if p x then [] else f x))
      = (l.filter (fun x => decide (¬p x))).flatMap f := by
  induction l with
  | nil => rfl
  | cons x xs ih => by_cases hx : p x <;> simp [hx, ih]

theorem flatMap_one {α : Type} {β : Type} (f : α → β) (l : List α) :
    (l.flatMap (fun x => [f x])) = l.map f := by
  induction l with
  | nil => rfl
  | cons x xs ih => simp [ih]

theorem inferDtype_strs_cases (dateParses : List String → Bool) (xs : List (Option String)) :
    inferDtype dateParses (Series.strs xs) = "temporal"
      ∨ inferDtype dateParses (Series.strs xs) = "nominal" := by
  simp only [inferDtype]
  split_ifs <;> simp

theorem surveyBlock_numeric (colName : String) (s : Series) (dtype0 : String)
    (hs : isNumericStorage s = true) :
    (surveyBlock colName s dtype0).is_checkbox = false
      ∧ (surveyBlock colName s dtype0).grid_group = none
      ∧ (surveyBlock colName s dtype0).dtypeOut = dtype0
      ∧ (dtype0 ≠ "ordinal" → (surveyBlock colName s dtype0).is_likert = false) := by
  cases s with
  | ints xs =>
    simp only [surveyBlock, isNumericStorage, Bool.not_true, Bool.and_false, Bool.true_and,
      Bool.false_eq_true, if_false]
    by_cases hd : dtype0 = "ordinal"
    · by_cases hnl : (detectNumericLikert (Series.ints xs)).1 = true
      · simp [surveyBlockNumeric, isNumericStorage, hd, hnl]
      · simp [surveyBlockNumeric, isNumericStorage, hd, hnl]
    · have hbe : (dtype0 == "ordinal") = false := by
        simpa using hd
      simp [surveyBlockNumeric, isNumericStorage, hbe]
  | floats xs =>
    simp only [surveyBlock, isNumericStorage, Bool.not_true, Bool.and_false, Bool.true_and,
      Bool.false_eq_true, if_false]
    by_cases hd : dtype0 = "ordinal"
    · by_cases hnl : (detectNumericLikert (Series.floats xs)).1 = true
      · simp [surveyBlockNumeric, isNumericStorage, hd, hnl]
      · simp [surveyBlockNumeric, isNumericStorage, hd, hnl]
    · have hbe : (dtype0 == "ordinal") = false := by
        simpa using hd
      simp [surveyBlockNumeric, isNumericStorage, hbe]
  | strs xs => simp [isNumericStorage] at hs
  | dts xs => simp [isNumericStorage] at hs

theorem profileColumn_fields (dateParses : List String → Bool) (colName : String) (s : Series) :
    (profileColumn dateParses colName s).dtype
        = (surveyBlock colName s (inferDtype dateParses s)).dtypeOut
      ∧ (profileColumn dateParses colName s).is_checkbox
        = (surveyBlock colName s (inferDtype dateParses s)).is_checkbox
      ∧ (profileColumn dateParses colName s).is_likert
        = (surveyBlock colName s (inferDtype dateParses s)).is_likert
      ∧ (profileColumn dateParses colName s).likert_order
        = (surveyBlock colName s (inferDtype dateParses s)).likert_order
      ∧ (profileColumn dateParses colName s).grid_group
        = (surveyBlock colName s (inferDtype dateParses s)).grid_group
      ∧ (profileColumn dateParses colName s).mean
        = (columnStats dateParses s).2.2 :=
  ⟨rfl, rfl, rfl, rfl, rfl, rfl⟩

theorem profileColumn_numeric_storage (dateParses : List String → Bool) (colName : String)
    (s : Series) (h : (profileColumn dateParses colName s).dtype = "numeric") :
    isNumericStorage s = true := by
  cases s with
  | ints xs => rfl
  | floats xs => rfl
  | strs xs =>
    exfalso
    rw [(profileColumn_fields dateParses colName (Series.strs xs)).1] at h
    rcases inferDtype_strs_cases dateParses xs with hd | hd <;>
      · rw [hd] at h
        simp only [surveyBlock, surveyBlockNumeric, isNumericStorage, Bool.not_false,
          Bool.and_true] at h
        repeat' split at h
        all_goals simp_all
  | dts xs =>
    exfalso
    rw [(profileColumn_fields dateParses colName (Series.dts xs)).1] at h
    simp only [inferDtype, surveyBlock, surveyBlockNumeric, isNumericStorage, Bool.not_false,
      Bool.and_true] at h
    repeat' split at h
    all_goals simp_all

theorem profileColumn_numeric_defaults (dateParses : List String → Bool) (colName : String)
    (s : Series) (h : (profileColumn dateParses colName s).dtype = "numeric") :
    (profileColumn dateParses colName s).is_checkbox = false
      ∧ (profileColumn dateParses colName s).is_likert = false
      ∧ (profileColumn dateParses colName s).grid_group = none := by
  have hs := profileColumn_numeric_storage dateParses colName s h
  have hsb := surveyBlock_numeric colName s (inferDtype dateParses s) hs
  have hpf := profileColumn_fields dateParses colName s
  have hd0 : inferDtype dateParses s = "numeric" := by
    rw [hpf.1, hsb.2.2.1] at h
    exact h
  refine ⟨?_, ?_, ?_⟩
  · rw [hpf.2.1]
    exact hsb.1
  · rw [hpf.2.2.1]
    refine hsb.2.2.2 ?_
    rw [hd0]
    decide
  · rw [hpf.2.2.2.2.1]
    exact hsb.2.1

theorem scatterPairs_eq {σ : Type} (secMap : List (String × String))
    (l : List ColumnProfile) :
    scatterPairs (σ := σ) secMap l
      = (pairsOf (l.filter (fun c => !idName c))).map
          (fun pr => scatterCand secMap pr.1 pr.2) := by
  induction l with
  | nil => rfl
  | cons x rest ih =>
    by_cases hx : idName x = true
    · simp [scatterPairs, hx, ih, List.filter_cons, pairsOf]
    · have hx2 : idName x = false := by
        simpa using hx
      have hstep : (rest.flatMap (fun y => if idName y then []
              else [scatterCand (σ := σ) secMap x y]))
          = (rest.filter (fun c => !idName c)).map (fun y => scatterCand secMap x y) := by
        rw [flatMap_skipP (fun y => idName y = true)
              (fun y => [scatterCand (σ := σ) secMap x y]) rest, flatMap_one]
        congr 1
        exact List.filter_congr (fun y _ => by cases h : idName y <;> simp [h])
      have hL : scatterPairs (σ := σ) secMap (x :: rest)
          = (rest.flatMap (fun y => if idName y then []
              else [scatterCand (σ := σ) secMap x y]))
            ++ scatterPairs secMap rest := by
        simp [scatterPairs, hx2]
      rw [hL, hstep, ih]
      have hR : pairsOf ((x :: rest).filter (fun c => !idName c))
          = (rest.filter (fun c => !idName c)).map (fun y => (x, y))
            ++ pairsOf (rest.filter (fun c => !idName c)) := by
        simp [List.filter_cons, hx2, pairsOf]
      rw [hR, List.map_append, List.map_map]
      rfl

/-- Helper: for every DatasetProfile produced by the profiler in which every
column is excluded as an ID (dtype numeric, name containing "id"
case-insensitively, unique_count equal to the row count), the deterministic
rule cascade on the intended data model computes the empty candidate list.
The AI structure analysis is absent (skip_ai set, or no provider so the
external call yields nothing). -/
theorem allId_profile_deterministic_empty {σ : Type} (dateParses : List String → Bool)
    (t : PTable) (skipAI : Bool) (aiResp : Option AIStructure) (sample : Option σ)
    (hAI : skipAI = true ∨ aiResp = none)
    (hall : ∀ c ∈ (profileDataset dateParses t).columns,
        c.dtype = "numeric" ∧ idName c = true
          ∧ c.unique_count = (profileDataset dateParses t).row_count) :
    inferCharts skipAI aiResp (profileDataset dateParses t) sample = [] := by
  set P := profileDataset dateParses t with hPdef
  have hcols : P.columns = t.cols.map (fun nc => profileColumn dateParses nc.1 nc.2) := rfl
  have hdefaults : ∀ c ∈ P.columns,
      c.is_checkbox = false ∧ c.is_likert = false ∧ c.grid_group = none := by
    intro c hc
    have hdt := (hall c hc).1
    rw [hcols] at hc
    rcases List.mem_map.mp hc with ⟨nc, _, hceq⟩
    subst hceq
    exact profileColumn_numeric_defaults dateParses nc.1 nc.2 hdt
  have htemp : temporalColsOf P = [] := by
    apply List.filter_eq_nil_iff.mpr
    intro c hc
    simp [(hall c hc).1]
  have hnom : P.columns.filter (fun c => c.dtype == "nominal") = [] := by
    apply List.filter_eq_nil_iff.mpr
    intro c hc
    simp [(hall c hc).1]
  have hord : P.columns.filter (fun c => c.dtype == "ordinal") = [] := by
    apply List.filter_eq_nil_iff.mpr
    intro c hc
    simp [(hall c hc).1]
  have hcat : categoricalColsOf P = [] := by
    rw [categoricalColsOf, hnom, hord]
    rfl
  have hnumsub : ∀ c ∈ numericColsOf P, c ∈ P.columns := by
    intro c hc
    exact (List.mem_filter.mp hc).1
  have hfilterid : (numericColsOf P).filter (fun c => !idName c) = [] := by
    apply List.filter_eq_nil_iff.mpr
    intro c hc
    simp [(hall c (hnumsub c hc)).2.1]
  have hstruct : (if skipAI then (none : Option AIStructure) else aiResp) = none := by
    rcases hAI with h | h
    · simp [h]
    · simp [h]
  have hgridmap : P.columns.filterMap (fun c => c.grid_group) = [] := by
    apply List.filterMap_eq_nil_iff.mpr
    intro c hc
    exact (hdefaults c hc).2.2
  have hkeys : gridGroupKeys [] P.columns = [] := by
    rw [gridGroupKeys, hgridmap]
    rfl
  have hcand : inferCandidates skipAI aiResp P sample = [] := by
    rw [inferCandidates]
    rw [hstruct]
    have hmaps : buildSectionMaps none = ([], []) := rfl
    rw [hmaps]
    rw [htemp, hcat]
    have h2 : ruleTimeValue (σ := σ) P.row_count [] (numericColsOf P) = [] := rfl
    have hcb : ruleCheckbox (σ := σ) ([] : List (String × String)) P.columns = [] := by
      rw [ruleCheckbox]
      have : P.columns.filter (fun c => c.is_checkbox) = [] := by
        apply List.filter_eq_nil_iff.mpr
        intro c hc
        simp [(hdefaults c hc).1]
      rw [this]
      rfl
    have hgr : ruleGrid (σ := σ) [] P.columns sample = [] := by
      rw [ruleGrid, hkeys]
      rfl
    have hproc : processedGridCols [] P.columns = [] := by
      rw [processedGridCols, hkeys]
      rfl
    have hlik : ruleLikert (σ := σ) [] P.columns (processedGridCols [] P.columns) = [] := by
      rw [ruleLikert]
      have : P.columns.filter (fun c =>
          c.is_likert &&
            (match c.likert_order with
             | some l => !l.isEmpty
             | none => false) &&
            !(processedGridCols [] P.columns).contains c.name) = [] := by
        apply List.filter_eq_nil_iff.mpr
        intro c hc
        simp [(hdefaults c hc).2.1]
      rw [this]
      rfl
    have hcv : ruleCatValue (σ := σ) [] ([] : List ColumnProfile) (numericColsOf P) = [] := rfl
    have hsc : ruleScatter (σ := σ) [] (numericColsOf P) = [] := by
      rw [ruleScatter]
      split
      · rw [scatterPairs_eq, hfilterid]
        rfl
      · rfl
    have hhist : ruleHistogram (σ := σ) [] (numericColsOf P) = [] := by
      rw [ruleHistogram]
      apply List.flatMap_eq_nil_iff.mpr
      intro c hc
      rw [if_pos]
      exact (hall c (hnumsub c hc)).2.1
    have hcs : ruleCatSingle (σ := σ) [] ([] : List ColumnProfile) = [] := rfl
    have hts : ruleTemporalSingle (σ := σ) [] ([] : List ColumnProfile) = [] := rfl
    have hhm : ruleHeatmap (σ := σ) [] ([] : List ColumnProfile) = [] := rfl
    have hst : ruleStacked (σ := σ) ([] : List ColumnProfile) (numericColsOf P) = [] := by
      simp [ruleStacked]
    have hcorr : ruleCorr (σ := σ) (numericColsOf P) = [] := by
      rw [ruleCorr]
      split
      · rw [hfilterid]
        rfl
      · rfl
    rw [h2, hcb, hgr, hlik, hcv, hsc, hhist, hcs, hts, hhm, hst, hcorr]
    rfl
  rw [inferCharts, hcand]
  rfl

/-- Helper: the is_checkbox read of inference.py:99 fails on every runtime
schema object, whatever value the profiler had computed, because the field
is not among the schema's declared fields. -/
theorem schemaRead_is_checkbox (b : Bool) :
    schemaRead columnProfileDeclaredFields "is_checkbox" b
      = Except.error "AttributeError: is_checkbox" := by
  rw [schemaRead, if_neg (by decide)]
  rfl

/-- Claim C2 (code bug): an all-ID profile (every column numeric, named with
"id", fully unique) should yield the empty candidate list without raising,
and the deterministic rule cascade on the intended data model indeed
computes [] — but the shipped schema drops is_checkbox (claim C1), so on
the runtime objects the route passes in, every such profile with at least
one column makes infer_charts raise AttributeError at inference.py:99
instead of returning that empty list. -/
theorem c2_all_id_runtime_behavior {σ : Type} (dateParses : List String → Bool)
    (t : PTable) (skipAI : Bool) (aiResp : Option AIStructure) (sample : Option σ)
    (hAI : skipAI = true ∨ aiResp = none)
    (hall : ∀ c ∈ (profileDataset dateParses t).columns,
        c.dtype = "numeric" ∧ idName c = true
          ∧ c.unique_count = (profileDataset dateParses t).row_count) :
    inferCharts skipAI aiResp (profileDataset dateParses t) sample = []
      ∧ (t.cols ≠ [] →
          inferChartsRuntime skipAI aiResp (profileDataset dateParses t) sample
            = Except.error "AttributeError: is_checkbox") := by
  refine ⟨allId_profile_deterministic_empty dateParses t skipAI aiResp sample hAI hall, ?_⟩
  intro hne
  cases ht : t.cols with
  | nil => exact absurd ht hne
  | cons nc rest =>
    have hcols : (profileDataset dateParses t).columns
        = profileColumn dateParses nc.1 nc.2
            :: rest.map (fun x => profileColumn dateParses x.1 x.2) := by
      have hbase : (profileDataset dateParses t).columns
          = t.cols.map (fun x => profileColumn dateParses x.1 x.2) := rfl
      rw [hbase, ht]
      rfl
    simp only [inferChartsRuntime, hcols, schemaRead_is_checkbox]

theorem surveyBlockNumeric_cb (s : Series) (dtype0 : String) :
    (surveyBlockNumeric s dtype0).is_checkbox = false := by
  rw [surveyBlockNumeric]
  split_ifs <;> rfl

theorem surveyBlock_exclusive (colName : String) (s : Series) (dtype0 : String) :
    ¬((surveyBlock colName s dtype0).is_checkbox = true
        ∧ (surveyBlock colName s dtype0).is_likert = true) := by
  cases s with
  | strs xs =>
    rw [surveyBlock]
    split
    · by_cases hc : detectCheckboxColumn xs = true
      · simp [hc]
      · simp [hc]
    · simp [surveyBlockNumeric_cb]
  | ints xs =>
    rw [surveyBlock]
    split
    all_goals first
      | (intro ys hys; exact Series.noConfusion hys)
      | simp [surveyBlockNumeric_cb]
  | floats xs =>
    rw [surveyBlock]
    split
    all_goals first
      | (intro ys hys; exact Series.noConfusion hys)
      | simp [surveyBlockNumeric_cb]
  | dts xs =>
    rw [surveyBlock]
    split
    all_goals first
      | (intro ys hys; exact Series.noConfusion hys)
      | simp [surveyBlockNumeric_cb]

/-- Claim C10: for every profiled column, is_checkbox and is_likert are never
both true: the string Likert detector only runs when checkbox detection
returned false, and numeric-Likert detection only fires on numerically
stored columns, which are never checked for checkbox. -/
theorem c10_checkbox_likert_exclusive (dateParses : List String → Bool) (colName : String)
    (s : Series) :
    ((profileColumn dateParses colName s).is_checkbox
        && (profileColumn dateParses colName s).is_likert) = false := by
  have h := surveyBlock_exclusive colName s (inferDtype dateParses s)
  have hpf := profileColumn_fields dateParses colName s
  rw [hpf.2.1, hpf.2.2.1]
  cases hcb : (surveyBlock colName s (inferDtype dateParses s)).is_checkbox
  · simp
  · cases hlk : (surveyBlock colName s (inferDtype dateParses s)).is_likert
    · simp
    · exact absurd ⟨hcb, hlk⟩ h

theorem inferDtype_ints_cases (dateParses : List String → Bool) (xs : List (Option Int)) :
    inferDtype dateParses (Series.ints xs) = "numeric"
      ∨ inferDtype dateParses (Series.ints xs) = "ordinal" := by
  simp only [inferDtype]
  repeat' split
  all_goals simp

theorem inferDtype_floats (dateParses : List String → Bool) (xs : List (Option ℚ)) :
    inferDtype dateParses (Series.floats xs) = "numeric" := by
  simp [inferDtype]

theorem columnStats_mean_nonnumeric (dateParses : List String → Bool) (s : Series)
    (hs : isNumericStorage s = false) :
    (columnStats dateParses s).2.2 = none := by
  cases s with
  | ints xs => simp [isNumericStorage] at hs
  | floats xs => simp [isNumericStorage] at hs
  | strs xs =>
    rw [columnStats]
    split
    · repeat' split
      all_goals rfl
    · simp [isNumericStorage]
  | dts xs =>
    rw [columnStats]
    split
    · repeat' split
      all_goals rfl
    · simp [isNumericStorage]

theorem foldl_optAcc_some {α : Type} (g : α → α → α) (l : List α) (a : α) :
    List.foldl (fun acc x => match acc with | none => some x | some m => some (g m x))
        (some a) l
      = some (List.foldl g a l) := by
  induction l generalizing a with
  | nil => rfl
  | cons y ys ih => exact ih (g a y)

theorem listMax?_cons {α : Type} [LinearOrder α] (x : α) (l : List α) :
    listMax? (x :: l) = some (List.foldl max x l) :=
  foldl_optAcc_some max l x

theorem listMin?_cons {α : Type} [LinearOrder α] (x : α) (l : List α) :
    listMin? (x :: l) = some (List.foldl min x l) :=
  foldl_optAcc_some min l x

/-- Claim C3 (counterexample): the integer column 1,2,3 is classified
'ordinal', yet its profile carries a non-null mean — the profiler computes
statistics by storage type (is_numeric_dtype), not by the assigned dtype. -/
theorem c3_ordinal_mean_counterexample :
    (profileColumn (fun _ => false) "score" (Series.ints [some 1, some 2, some 3])).dtype
        = "ordinal"
      ∧ (profileColumn (fun _ => false) "score" (Series.ints [some 1, some 2, some 3])).mean
        ≠ none :=
  ⟨by decide, by decide⟩

/-- Claim C3 (amended): mean is null whenever the assigned dtype is temporal
or nominal; for an 'ordinal' column the mean is non-null exactly when the
column is numerically stored and has at least one non-null value. -/
theorem c3_mean_null_amended (dateParses : List String → Bool) (colName : String)
    (s : Series) :
    ((profileColumn dateParses colName s).dtype = "temporal"
        ∨ (profileColumn dateParses colName s).dtype = "nominal"
      → (profileColumn dateParses colName s).mean = none)
    ∧ ((profileColumn dateParses colName s).dtype = "ordinal"
      → ((profileColumn dateParses colName s).mean ≠ none
          ↔ isNumericStorage s = true ∧ nonNullCount s ≠ 0)) := by
  have hpf := profileColumn_fields dateParses colName s
  constructor
  · intro hd
    rw [hpf.2.2.2.2.2]
    cases hs : isNumericStorage s
    · exact columnStats_mean_nonnumeric dateParses s hs
    · exfalso
      have hsb := surveyBlock_numeric colName s (inferDtype dateParses s) hs
      rw [hpf.1, hsb.2.2.1] at hd
      cases s with
      | ints xs =>
        rcases inferDtype_ints_cases dateParses xs with h | h <;>
          rcases hd with h2 | h2 <;> simp_all
      | floats xs =>
        have := inferDtype_floats dateParses xs
        rcases hd with h2 | h2 <;> simp_all
      | strs xs => simp [isNumericStorage] at hs
      | dts xs => simp [isNumericStorage] at hs
  · intro hd
    cases hs : isNumericStorage s
    · rw [hpf.2.2.2.2.2, columnStats_mean_nonnumeric dateParses s hs]
      simp [hs]
    · rw [hpf.2.2.2.2.2]
      cases s with
      | strs xs => simp [isNumericStorage] at hs
      | dts xs => simp [isNumericStorage] at hs
      | floats xs =>
        exfalso
        have hsb := surveyBlock_numeric colName (Series.floats xs)
          (inferDtype dateParses (Series.floats xs)) hs
        rw [hpf.1, hsb.2.2.1, inferDtype_floats dateParses xs] at hd
        exact absurd hd (by decide)
      | ints xs =>
        have hnt : ¬(inferDtype dateParses (Series.ints xs) = "temporal") := by
          rcases inferDtype_ints_cases dateParses xs with h | h <;> simp [h]
        rw [columnStats, if_neg hnt]
        have hnum : isNumericStorage (Series.ints xs) = true := rfl
        rw [if_pos hnum]
        simp only [numericValues]
        cases hxs : dropNone xs with
        | nil => simp [hxs, listMax?, listMin?, nonNullCount]
        | cons v vs =>
          simp [hxs, List.map_cons, listMin?_cons, listMax?_cons, nonNullCount]
        all_goals
          intro ys hys
          exact Series.noConfusion hys

/-- Witness for the amended C3 at a concrete nominal column. -/
theorem c3_mean_null_amended_witness :
    (profileColumn (fun _ => false) "city" (Series.strs [some "a", some "b"])).mean = none :=
  (c3_mean_null_amended (fun _ => false) "city" (Series.strs [some "a", some "b"])).1
    (Or.inr (by decide))

/-- Claim C7: classification of numerically stored columns: 12 or more
uniques is always 'numeric'; below 12, float storage is 'numeric', integer
storage with max above 50 is 'numeric', and integer storage with max at most
50 is 'ordinal'. -/
theorem c7_numeric_storage_classification (dateParses : List String → Bool) (s : Series)
    (hs : isNumericStorage s = true) :
    (12 ≤ nuniqueOf s → inferDtype dateParses s = "numeric")
    ∧ (nuniqueOf s < 12 → isFloatStorage s = true → inferDtype dateParses s = "numeric")
    ∧ (∀ xs, s = Series.ints xs → nuniqueOf s < 12 →
        ∀ m, listMax? (dropNone xs) = some m →
          (50 < m → inferDtype dateParses s = "numeric")
          ∧ (m ≤ 50 → inferDtype dateParses s = "ordinal")) := by
  refine ⟨?_, ?_, ?_⟩
  · intro h12
    cases s with
    | ints xs =>
      have : ¬((dedupFirst (dropNone xs)).length < 12) := by
        have hn : nuniqueOf (Series.ints xs) = (dedupFirst (dropNone xs)).length := rfl
        omega
      rw [inferDtype, if_neg this]
    | floats xs => exact inferDtype_floats dateParses xs
    | strs xs => simp [isNumericStorage] at hs
    | dts xs => simp [isNumericStorage] at hs
  · intro h12 hf
    cases s with
    | ints xs => simp [isFloatStorage] at hf
    | floats xs => exact inferDtype_floats dateParses xs
    | strs xs => simp [isNumericStorage] at hs
    | dts xs => simp [isNumericStorage] at hs
  · intro xs hxs h12 m hm
    subst hxs
    have hlt : (dedupFirst (dropNone xs)).length < 12 := by
      have hn : nuniqueOf (Series.ints xs) = (dedupFirst (dropNone xs)).length := rfl
      omega
    constructor
    · intro h50
      rw [inferDtype, if_pos hlt, hm]
      simp [h50]
    · intro h50
      have hng : ¬(m > 50) := by omega
      rw [inferDtype, if_pos hlt, hm]
      simp [hng]

/-- Witness for C7 at concrete integer and float columns. -/
theorem c7_numeric_storage_classification_witness :
    inferDtype (fun _ => false) (Series.ints [some 60]) = "numeric"
      ∧ inferDtype (fun _ => false) (Series.ints [some 7]) = "ordinal"
      ∧ inferDtype (fun _ => false) (Series.floats [some 1]) = "numeric" :=
  ⟨((c7_numeric_storage_classification (fun _ => false) (Series.ints [some 60]) rfl).2.2
      [some 60] rfl (by decide) 60 (by decide)).1 (by decide),
   ((c7_numeric_storage_classification (fun _ => false) (Series.ints [some 7]) rfl).2.2
      [some 7] rfl (by decide) 7 (by decide)).2 (by decide),
   (c7_numeric_storage_classification (fun _ => false) (Series.floats [some 1]) rfl).2.1
      (by decide) rfl⟩

theorem flatMap_congr_fn {α : Type} {β : Type} (l : List α) (f g : α → List β)
    (h : ∀ x, f x = g x) : l.flatMap f = l.flatMap g := by
  induction l with
  | nil => rfl
  | cons x xs ih => simp [List.flatMap_cons, h x, ih]

/-- Claim C1: the survey attributes named by the data model are passed by the
profiler's ColumnProfile construction but are not declared fields of the
pydantic ColumnProfile schema, whose default configuration silently drops
unknown keyword arguments: the serialized profile cannot carry them, and the
attribute reads in inference.py (e.g. c.is_checkbox, line 99) fail on real
schema objects. -/
theorem c1_survey_fields_dropped_by_schema :
    surveyAttributeFields.all
        (fun f => profilerPassedFields.contains f
          && !columnProfileDeclaredFields.contains f) = true := by
  decide

/-- Claim C4 (counterexample): "humidity" contains "id" and its unique count
(3) differs from the profile's row count (5), yet the three rules the claim
names all skip it — each emits candidates only for the id-free companion
columns, and the scatter rule, whose sole possible pair involves humidity,
emits nothing — because those rules test the name alone, never the
unique-count-equals-row-count conjunct. -/
theorem c4_humidity_rules_skip_counterexample :
    idName humidityCol = true
      ∧ humidityCol.unique_count ≠ profHumidityCity.row_count
      ∧ ruleCatValue (σ := Unit) [] (categoricalColsOf profHumidityCity)
          (numericColsOf profHumidityCity) = catValCands [] cityCol tempCol
      ∧ ruleScatter (σ := Unit) [] (numericColsOf profHumidityCity) = []
      ∧ ruleHistogram (σ := Unit) [] (numericColsOf profHumidityCity)
          = [histCand [] tempCol] :=
  ⟨by decide, by decide, by decide, by decide, by decide⟩

/-- Claim C4 (amended): only the time+value rule skips a numeric column on
the conjunction (name contains "id" AND unique_count equals the row count);
the category+value, scatter-pair and histogram rules skip a numeric column
exactly when its name contains "id", regardless of unique_count. -/
theorem c4_id_skip_rules_amended {σ : Type} (rowCount : Nat)
    (secMap : List (String × String))
    (temporalCols numericCols categoricalCols : List ColumnProfile) :
    ruleTimeValue (σ := σ) rowCount temporalCols numericCols
        = temporalCols.flatMap (fun t =>
            (numericCols.filter
                (fun n => !(idName n && decide (n.unique_count = rowCount)))).map
              (fun n => tvCand t n))
      ∧ ruleCatValue (σ := σ) secMap categoricalCols numericCols
        = (categoricalCols.filter (fun c => decide (c.unique_count ≤ 20))).flatMap
            (fun cat => (numericCols.filter (fun n => !idName n)).flatMap
              (fun n => catValCands secMap cat n))
      ∧ ruleScatter (σ := σ) secMap numericCols
        = (if 2 ≤ numericCols.length then
             (pairsOf (numericCols.filter (fun c => !idName c))).map
               (fun pr => scatterCand secMap pr.1 pr.2)
           else [])
      ∧ ruleHistogram (σ := σ) secMap numericCols
        = (numericCols.filter (fun n => !idName n)).map (fun n => histCand secMap n) := by
  refine ⟨?_, ?_, ?_, ?_⟩
  · rw [ruleTimeValue]
    apply flatMap_congr_fn
    intro t
    rw [flatMap_skipP (fun n => idName n = true ∧ n.unique_count = rowCount)
        (fun n => [tvCand (σ := σ) t n]) numericCols, flatMap_one]
    congr 1
    apply List.filter_congr
    intro n _
    by_cases h1 : idName n = true <;> by_cases h2 : n.unique_count = rowCount <;>
      simp [h1, h2]
  · rw [ruleCatValue, flatMap_skipP (fun c => 20 < c.unique_count)
        (fun cat => numericCols.flatMap fun n =>
          if idName n = true then [] else catValCands (σ := σ) secMap cat n) categoricalCols]
    rw [List.filter_congr (fun c _ => decide_eq_decide.mpr not_lt)]
    apply flatMap_congr_fn
    intro cat
    rw [flatMap_skipP (fun n => idName n = true) (catValCands (σ := σ) secMap cat) numericCols]
    congr 1
    apply List.filter_congr
    intro n _
    by_cases h : idName n = true <;> simp [h]
  · rw [ruleScatter]
    split
    · exact scatterPairs_eq secMap numericCols
    · rfl
  · rw [ruleHistogram, flatMap_skipP (fun n => idName n = true)
        (fun n => [histCand (σ := σ) secMap n]) numericCols, flatMap_one]
    congr 1
    apply List.filter_congr
    intro n _
    by_cases h : idName n = true <;> simp [h]

theorem map_fst_numericScores (clean : List String) :
    (numericScoresOf clean).map Prod.fst
      = clean.filter (fun v => (numericPrefixOf v).isSome) := by
  induction clean with
  | nil => rfl
  | cons v vws ih =>
    simp only [numericScoresOf] at ih ⊢
    cases h : numericPrefixOf v <;>
      simp [List.filterMap_cons, h, List.filter_cons, ih]

theorem mem_numericScores {p : String × Nat} {clean : List String}
    (hp : p ∈ numericScoresOf clean) : numericPrefixOf p.1 = some p.2 := by
  rw [numericScoresOf] at hp
  rcases List.mem_filterMap.mp hp with ⟨v, _, hv⟩
  cases h : numericPrefixOf v with
  | none =>
    rw [h] at hv
    simp at hv
  | some n =>
    rw [h] at hv
    simp only [Option.map_some', Option.some.injEq] at hv
    rw [← hv]
    exact h

/-- Claim C5 (counterexample): with values 1 (Low), 2 (High), Unsure — a 2/3
prefix rate, above the 60% threshold — Likert detection succeeds but the
returned order contains only the two values that yielded a prefix, not all
input values: "Unsure" is dropped. -/
theorem c5_likert_order_counterexample :
    detectLikertScale ["1 (Low)", "2 (High)", "Unsure"]
        = (true, some ["1 (Low)", "2 (High)"])
      ∧ "Unsure" ∉ ["1 (Low)", "2 (High)"] :=
  ⟨by decide, by decide⟩

/-- Claim C5 (amended): when the raw value list has 2..10 entries, the
cleaned list at least 2, and at least 60% of the cleaned values yield a
numeric prefix, detection returns true with an order that is exactly the
prefix-yielding values (a permutation of that sublist), sorted by extracted
prefix ascending. -/
theorem c5_numeric_prefix_amended (vs : List String)
    (h1 : 2 ≤ vs.length) (h2 : vs.length ≤ 10)
    (h3 : 2 ≤ (cleanVals vs).length)
    (h4 : 3 * (cleanVals vs).length ≤ 5 * (numericScoresOf (cleanVals vs)).length) :
    (detectLikertScale vs).1 = true
      ∧ ∃ l, (detectLikertScale vs).2 = some l
          ∧ l.Perm ((cleanVals vs).filter (fun v => (numericPrefixOf v).isSome))
          ∧ l.Pairwise (fun a b => ∀ na nb, numericPrefixOf a = some na
              → numericPrefixOf b = some nb → na ≤ nb) := by
  have hres : detectLikertScale vs
      = (true, some ((sortByKey Prod.snd (numericScoresOf (cleanVals vs))).map Prod.fst)) := by
    simp only [detectLikertScale]
    rw [if_neg (by simp; omega)]
    rw [if_neg (by omega)]
    rw [if_pos h4]
  rw [hres]
  refine ⟨rfl, ⟨_, rfl, ?_, ?_⟩⟩
  · have hperm := (sortByKey_perm Prod.snd (numericScoresOf (cleanVals vs))).map Prod.fst
    rw [map_fst_numericScores] at hperm
    exact hperm
  · have hp := sortByKey_pairwise Prod.snd (numericScoresOf (cleanVals vs))
    have hmem : ∀ p ∈ sortByKey Prod.snd (numericScoresOf (cleanVals vs)),
        numericPrefixOf p.1 = some p.2 := by
      intro p hpmem
      exact mem_numericScores ((sortByKey_perm _ _).mem_iff.mp hpmem)
    rw [List.pairwise_map]
    refine List.Pairwise.imp_of_mem ?_ hp
    intro a b ha hb hr na nb hna hnb
    rw [hmem a ha] at hna
    rw [hmem b hb] at hnb
    rw [← Option.some_inj.mp hna, ← Option.some_inj.mp hnb]
    exact hr

/-- Witness for the amended C5 at a concrete 2/3-prefix value set. -/
theorem c5_numeric_prefix_amended_witness :
    (detectLikertScale ["2 (B)", "1 (A)", "zz"]).1 = true
      ∧ ∃ l, (detectLikertScale ["2 (B)", "1 (A)", "zz"]).2 = some l
          ∧ l.Perm ((cleanVals ["2 (B)", "1 (A)", "zz"]).filter
              (fun v => (numericPrefixOf v).isSome))
          ∧ l.Pairwise (fun a b => ∀ na nb, numericPrefixOf a = some na
              → numericPrefixOf b = some nb → na ≤ nb) :=
  c5_numeric_prefix_amended ["2 (B)", "1 (A)", "zz"] (by decide) (by decide) (by decide)
    (by decide)

/-- Claim C6 (counterexample): with exactly 10% of the sample (1 value of 10)
comma-separated into two parts, checkbox detection returns false: the source
compares the comma rate with strict >, not ≥, and neither other strategy
fires on this column. -/
theorem c6_exact_ten_percent_counterexample :
    10 * commaCountOf (checkboxSample ([some "A, B"] ++ List.replicate 9 (some "x")))
        = (checkboxSample ([some "A, B"] ++ List.replicate 9 (some "x"))).length
      ∧ detectCheckboxColumn ([some "A, B"] ++ List.replicate 9 (some "x")) = false :=
  ⟨by decide, by decide⟩

/-- Claim C6 (amended): the comma heuristic flags a string column as checkbox
whenever strictly more than 10% of its 200-row non-null sample contains a
comma separating at least two non-empty trimmed parts. -/
theorem c6_checkbox_comma_amended (xs : List (Option String))
    (h0 : checkboxSample xs ≠ [])
    (h1 : (checkboxSample xs).length < 10 * commaCountOf (checkboxSample xs)) :
    detectCheckboxColumn xs = true := by
  simp only [detectCheckboxColumn]
  rw [if_neg (by simpa [List.isEmpty_iff] using h0)]
  rw [if_pos h1]

/-- Witness for the amended C6 at a 20% comma rate. -/
theorem c6_checkbox_comma_amended_witness :
    detectCheckboxColumn ([some "A, B", some "C, D"] ++ List.replicate 8 (some "x"))
      = true :=
  c6_checkbox_comma_amended ([some "A, B", some "C, D"] ++ List.replicate 8 (some "x"))
    (by decide) (by decide)

/-- Claim C8: infer_charts output is sorted non-increasing by score; within
one score class the output is a sublist of the generation-order candidate
list (stability: ties keep the order the rules generated them, truncation
can only cut a suffix of each class); and the output holds at most 50
candidates. -/
theorem c8_candidates_sorted_capped {σ : Type} (skipAI : Bool) (aiResp : Option AIStructure)
    (profile : DatasetProfile) (sample : Option σ) :
    (inferCharts skipAI aiResp profile sample).Pairwise (fun a b => b.score ≤ a.score)
      ∧ (∀ s : ℚ,
          ((inferCharts skipAI aiResp profile sample).filter
              (fun c => decide (c.score = s))).Sublist
            ((inferCandidates skipAI aiResp profile sample).filter
              (fun c => decide (c.score = s))))
      ∧ (inferCharts skipAI aiResp profile sample).length ≤ 50 := by
  refine ⟨?_, ?_, ?_⟩
  · have hp := sortByKey_pairwise (fun c : ChartCandidate σ => -c.score)
      (inferCandidates skipAI aiResp profile sample)
    exact List.Pairwise.imp (fun h => neg_le_neg_iff.mp h)
      (List.Pairwise.sublist (List.take_sublist 50 _) hp)
  · intro s
    have hbr : ∀ (l : List (ChartCandidate σ)),
        l.filter (fun c => decide (-c.score = -s)) = l.filter (fun c => decide (c.score = s)) :=
      fun l => List.filter_congr (fun x _ => decide_eq_decide.mpr neg_inj)
    have h1 : ((inferCharts skipAI aiResp profile sample).filter
        (fun c => decide (c.score = s))).Sublist
        ((sortByKey (fun c : ChartCandidate σ => -c.score)
            (inferCandidates skipAI aiResp profile sample)).filter
          (fun c => decide (c.score = s))) :=
      List.Sublist.filter _ (List.take_sublist 50 _)
    have h2 : (sortByKey (fun c : ChartCandidate σ => -c.score)
          (inferCandidates skipAI aiResp profile sample)).filter
          (fun c => decide (c.score = s))
        = (inferCandidates skipAI aiResp profile sample).filter
          (fun c => decide (c.score = s)) := by
      rw [← hbr (sortByKey (fun c : ChartCandidate σ => -c.score)
          (inferCandidates skipAI aiResp profile sample)),
        ← hbr (inferCandidates skipAI aiResp profile sample)]
      exact sortByKey_filter_key (fun c : ChartCandidate σ => -c.score) (-s)
        (inferCandidates skipAI aiResp profile sample)
    rw [h2] at h1
    exact h1
  · rw [inferCharts, List.length_take]
    exact min_le_left _ _

/-- Claim C9 (counterexample): at a concrete one-column profile, with
skip_ai left at its default (False), an invocation of infer_charts yields no
candidate list at all — the is_checkbox read at inference.py:99 raises
AttributeError on the runtime schema objects — so infer_charts is not the
total, pure list-valued function of the DatasetProfile and sample rows the
claim describes. -/
theorem c9_runtime_never_yields_counterexample :
    inferChartsRuntime false none profQNom (none : Option Unit)
      = Except.error "AttributeError: is_checkbox" := by
  have hcols : profQNom.columns = qNomCol :: [] := rfl
  simp only [inferChartsRuntime, hcols, schemaRead_is_checkbox]

/-- Claim C9 (amended): as shipped, infer_charts raises for every profile
with at least one column (so no candidate list is yielded to compare); on
the intended data model the deterministic rule engine is pure: with skip_ai
set, the result is independent of whatever the AI layer would have
answered, and coincides with the result when the AI layer yields nothing
(no provider configured, call failed, or response unparseable). -/
theorem c9_purity_amended {σ : Type} (a1 a2 : Option AIStructure) (skipAI : Bool)
    (profile : DatasetProfile) (sample : Option σ)
    (hne : profile.columns ≠ []) :
    inferChartsRuntime skipAI a1 profile sample
        = Except.error "AttributeError: is_checkbox"
      ∧ inferCharts true a1 profile sample = inferCharts true a2 profile sample
      ∧ inferCharts false none profile sample = inferCharts true a1 profile sample := by
  refine ⟨?_, rfl, rfl⟩
  cases hc : profile.columns with
  | nil => exact absurd hc hne
  | cons c cs => simp only [inferChartsRuntime, hc, schemaRead_is_checkbox]

/-- Witness for C2 at a concrete all-ID table: one fully-unique integer
column named user_id; the intended cascade computes [], the runtime call
raises. -/
theorem c2_all_id_runtime_behavior_witness :
    inferCharts true none
        (profileDataset (fun _ => false)
          { nRows := 3, cols := [("user_id", Series.ints [some 100, some 200, some 300])] })
        (none : Option Unit) = []
      ∧ inferChartsRuntime true none
          (profileDataset (fun _ => false)
            { nRows := 3, cols := [("user_id", Series.ints [some 100, some 200, some 300])] })
          (none : Option Unit) = Except.error "AttributeError: is_checkbox" := by
  have h := c2_all_id_runtime_behavior (σ := Unit) (fun _ => false)
    { nRows := 3, cols := [("user_id", Series.ints [some 100, some 200, some 300])] }
    true none none (Or.inl rfl) (by decide)
  exact ⟨h.1, h.2 (by decide)⟩

/-- Witness for the amended C9 at the concrete one-column profile, with a
nontrivial AI response on one side. -/
theorem c9_purity_amended_witness :
    inferChartsRuntime true (some aiGridResp) profQNom (none : Option Unit)
        = Except.error "AttributeError: is_checkbox"
      ∧ inferCharts true (some aiGridResp) profQNom (none : Option Unit)
        = inferCharts true none profQNom (none : Option Unit)
      ∧ inferCharts false none profQNom (none : Option Unit)
        = inferCharts true (some aiGridResp) profQNom (none : Option Unit) :=
  c9_purity_amended (some aiGridResp) none true profQNom none (by decide)

example : score100 = 1.0 := by norm_num [score100]
example : score098 = 0.98 := by norm_num [score098, Rat.mk'_eq_divInt, Rat.divInt_eq_div]
example : score095 = 0.95 := by norm_num [score095, Rat.mk'_eq_divInt, Rat.divInt_eq_div]
example : score092 = 0.92 := by norm_num [score092, Rat.mk'_eq_divInt, Rat.divInt_eq_div]
example : score085 = 0.85 := by norm_num [score085, Rat.mk'_eq_divInt, Rat.divInt_eq_div]
example : score082 = 0.82 := by norm_num [score082, Rat.mk'_eq_divInt, Rat.divInt_eq_div]
example : score080 = 0.80 := by norm_num [score080, Rat.mk'_eq_divInt, Rat.divInt_eq_div]
example : score075 = 0.75 := by norm_num [score075, Rat.mk'_eq_divInt, Rat.divInt_eq_div]
example : score072 = 0.72 := by norm_num [score072, Rat.mk'_eq_divInt, Rat.divInt_eq_div]
example : score070 = 0.70 := by norm_num [score070, Rat.mk'_eq_divInt, Rat.divInt_eq_div]
example : score068 = 0.68 := by norm_num [score068, Rat.mk'_eq_divInt, Rat.divInt_eq_div]
example : score065 = 0.65 := by norm_num [score065, Rat.mk'_eq_divInt, Rat.divInt_eq_div]
example : score060 = 0.60 := by norm_num [score060, Rat.mk'_eq_divInt, Rat.divInt_eq_div]

example : numericPrefixOf "1 (Strongly Disagree)" = some 1 := by decide
example : numericPrefixOf "2. Disagree" = some 2 := by decide
example : numericPrefixOf "3" = some 3 := by decide
example : numericPrefixOf "12a" = none := by decide
example : detectGridGroup "Rate [Product A]" = some "Rate" := by decide
example : detectGridGroup "plain" = none := by decide
